import Mathlib

/-!
Verification of the session-lifecycle state machine and frame-scheduling loop
of the videojs-xr plugin (src/plugin.js).

The plugin instance (the JS `this`) is modelled as an `XrState` record.  Each
method of the class becomes a state transformer that also emits a trace of
external effects (`Effect`); a JS exception escaping the method is modelled by
`Outcome.thrown` carrying the partial state at the point of the throw.
Asynchronous continuations (promise `.then` handlers) are separate step
functions, driven by the environment through an explicit step relation.
-/

set_option autoImplicit false

namespace VideojsXr

/-- The two frame-scheduling clocks: the host player's (desktop) clock and the
immersive session's clock. -/
inductive Clock where
  | player
  | session
deriving DecidableEq, Repr, BEq

/-- JS exceptions relevant to the modelled code: property access on
null/undefined raises a TypeError. -/
inductive JsError where
  | typeError
deriving DecidableEq, Repr

/-- Window/player event names the plugin subscribes to. -/
inductive EvtName where
  | fullscreenchange
  | vrdisplaypresentchange
  | winResize
  | vrdisplayactivate
  | vrdisplaydeactivate
deriving DecidableEq, Repr

/-- Observable effects performed on external collaborators (player, window,
renderer, controls, console), in the order the source performs them. -/
inductive Effect where
  | disposeControls3d
  | disposeCanvasControls
  | removeListener (e : EvtName)
  | addListener (e : EvtName)
  | onPlayerFullscreen
  | cancelFrame (h : Nat) (cl : Clock)
  | scheduleFrame (h : Nat) (cl : Clock)
  | setInitializedTrue
  | setInitializedFalse
  | triggerEvt (name : String)
  | logMsg (m : String)
  | disableControls
  | enableControls
  | requestSessionCall
  | sessionEndCall (sess : Nat)
  | setRendererSession (present : Bool)
  | requestRefSpaceCall
  | addEndListener
  | restoreVideoStyle
  | hideVideoStyle
  | removeCanvas
  | insertCanvas
  | allocScene
  | swapToVrButton
  | restoreBigPlayButton
  | removeVrButton
  | removeCardboard
  | addCardboard
  | probeCall
  | textureDirty
  | cameraDirUpdate
  | controlsUpdate
  | poseSample
  | renderCall
  | superDispose
  | resizeRenderer (w ht : Nat)
deriving DecidableEq, Repr

/-- The plugin instance state (fields of the JS object plus the environment
bookkeeping needed to observe scheduling: the multiset of pending frame
callbacks and the counters of outstanding promises). -/
structure XrState where
  initialized_ : Bool
  xrSupported : Bool
  xrActive : Bool
  currentSession : Option Nat
  animationFrameId_ : Option Nat
  controls3d : Bool
  controlsEnabled : Bool
  canvasPlayerControls : Bool
  renderedCanvas : Bool
  videoStyleHidden : Bool
  windowListeners : List EvtName
  playerFsSubs : Nat
  hasBigPlayButton : Bool
  hasBigVrPlayButton : Bool
  hasCardboardButton : Bool
  playerHasCardboard : Bool
  xrReferenceSpace : Bool
  rendererSessionSet : Bool
  rendererXrEnabled : Bool
  endRequested : List Nat
  pendingProbe : Nat
  pendingSessionRequests : Nat
  pendingRefSpace : Nat
  pendingEnd : Nat
  pending : List (Nat × Clock)
  nextHandle : Nat
  xrAvailable : Bool
  videoReady : Bool
  videoTextureDirty : Bool
  rendererSize : Nat × Nat
  cameraAspect : Nat × Nat
deriving DecidableEq, Repr

/-- State right after the constructor ran: `currentSession = null`, every
still-undefined field reads as falsy. -/
def initialState : XrState :=
  { initialized_ := false
    xrSupported := false
    xrActive := false
    currentSession := none
    animationFrameId_ := none
    controls3d := false
    controlsEnabled := false
    canvasPlayerControls := false
    renderedCanvas := false
    videoStyleHidden := false
    windowListeners := []
    playerFsSubs := 0
    hasBigPlayButton := true
    hasBigVrPlayButton := false
    hasCardboardButton := false
    playerHasCardboard := false
    xrReferenceSpace := false
    rendererSessionSet := false
    rendererXrEnabled := false
    endRequested := []
    pendingProbe := 0
    pendingSessionRequests := 0
    pendingRefSpace := 0
    pendingEnd := 0
    pending := []
    nextHandle := 1
    xrAvailable := true
    videoReady := false
    videoTextureDirty := false
    rendererSize := (0, 0)
    cameraAspect := (0, 0) }

/-- Result of running one (possibly throwing) method body. -/
inductive Outcome where
  | ok (s : XrState) (tr : List Effect)
  | thrown (e : JsError) (s : XrState) (tr : List Effect)
deriving DecidableEq, Repr

def Outcome.st : Outcome → XrState
  | .ok s _ => s
  | .thrown _ s _ => s

def Outcome.tr : Outcome → List Effect
  | .ok _ t => t
  | .thrown _ _ t => t

def Outcome.isOk : Outcome → Bool
  | .ok _ _ => true
  | .thrown _ _ _ => false

def Outcome.thrownErr : Outcome → Option JsError
  | .ok _ _ => none
  | .thrown e _ _ => some e

/-- Sequencing of method fragments: an exception short-circuits, traces
accumulate. -/
def Outcome.andThen (o : Outcome) (f : XrState → Outcome) : Outcome :=
  match o with
  | .ok s tr =>
    match f s with
    | .ok s2 tr2 => .ok s2 (tr ++ tr2)
    | .thrown e s2 tr2 => .thrown e s2 (tr ++ tr2)
  | .thrown e s tr => .thrown e s tr

/-- Sequencing of pure (state, trace) phases. -/
def pseq (a : XrState × List Effect) (f : XrState → XrState × List Effect) :
    XrState × List Effect :=
  ((f a.1).1, a.2 ++ (f a.1).2)

/-- Which clock the dispatch branch of the scheduling wrappers selects in a
given state. -/
def clockOf (s : XrState) : Clock :=
  if s.xrActive then Clock.session else Clock.player

namespace Xr

/-- `requestAnimationFrame(fn)` (plugin.js 105-110): branch on `this.xrActive`
at the moment of the call; if active, `this.currentSession.requestAnimationFrame`
(a TypeError on a null session), else `this.player.requestAnimationFrame`.
Returns the new handle and the clock that was used. -/
def requestAnimationFrame (s : XrState) : Except JsError (Nat × Clock × XrState) :=
  if s.xrActive then
    match s.currentSession with
    | none => Except.error JsError.typeError
    | some _ =>
      Except.ok (s.nextHandle, Clock.session,
        { s with nextHandle := s.nextHandle + 1,
                 pending := s.pending ++ [(s.nextHandle, Clock.session)] })
  else
    Except.ok (s.nextHandle, Clock.player,
      { s with nextHandle := s.nextHandle + 1,
               pending := s.pending ++ [(s.nextHandle, Clock.player)] })

/-- `cancelAnimationFrame(id)` (plugin.js 112-117): branch on `this.xrActive`
at the moment of the call; the chosen clock only cancels callbacks it itself
scheduled. -/
def cancelAnimationFrame (id : Nat) (s : XrState) : Except JsError (Clock × XrState) :=
  if s.xrActive then
    match s.currentSession with
    | none => Except.error JsError.typeError
    | some _ =>
      Except.ok (Clock.session,
        { s with pending := s.pending.filter (fun x => !(x = (id, Clock.session) : Bool)) })
  else
    Except.ok (Clock.player,
      { s with pending := s.pending.filter (fun x => !(x = (id, Clock.player) : Bool)) })

/-- The recurring `if (this.animationFrameId_) this.cancelAnimationFrame(this.animationFrameId_)`
pattern (plugin.js 58-59, 87-88, 323-325). -/
def tryCancelStored (s : XrState) : Except JsError (XrState × List Effect) :=
  match s.animationFrameId_ with
  | none => Except.ok (s, [])
  | some hid =>
    match cancelAnimationFrame hid s with
    | Except.error e => Except.error e
    | Except.ok (cl, s2) => Except.ok (s2, [Effect.cancelFrame hid cl])

/-- `handleVrDisplayActivate_` synchronous part (plugin.js 54-64): capability
guard, cancel the stored frame handle, disable desktop controls, issue the
immersive-session request. The promise continuations are separate steps. -/
def handleVrDisplayActivate_ (s : XrState) : Outcome :=
  if !s.xrSupported then Outcome.ok s []
  else
    match tryCancelStored s with
    | Except.error e => Outcome.thrown e s []
    | Except.ok (s1, tr1) =>
      if !s1.controls3d then Outcome.thrown JsError.typeError s1 tr1
      else
        Outcome.ok
          { s1 with controlsEnabled := false,
                    pendingSessionRequests := s1.pendingSessionRequests + 1 }
          (tr1 ++ [Effect.disableControls, Effect.requestSessionCall])

/-- Fulfilment handler of the `requestSession` promise (plugin.js 64-73):
register the session end listener, install the session on the renderer, store
`currentSession`, request the reference space. -/
def activateSessionResolved (sess : Nat) (s : XrState) : Outcome :=
  if s.pendingSessionRequests = 0 then Outcome.ok s []
  else
    Outcome.ok
      { s with pendingSessionRequests := s.pendingSessionRequests - 1,
               rendererSessionSet := true,
               currentSession := some sess,
               pendingRefSpace := s.pendingRefSpace + 1 }
      [Effect.addEndListener, Effect.setRendererSession true, Effect.requestRefSpaceCall]

/-- State updates of the reference-space fulfilment handler before it
schedules the first session-clock frame. -/
def refSpaceApply (s : XrState) : XrState :=
  { s with pendingRefSpace := s.pendingRefSpace - 1,
           xrReferenceSpace := true, xrActive := true }

/-- Fulfilment handler of the `requestReferenceSpace` promise (plugin.js
73-79): store the reference space, set `xrActive`, emit the activation event,
schedule the first frame on the now-active clock. -/
def activateRefSpaceResolved (s : XrState) : Outcome :=
  if s.pendingRefSpace = 0 then Outcome.ok s []
  else
    match requestAnimationFrame (refSpaceApply s) with
    | Except.error e =>
      Outcome.thrown e (refSpaceApply s) [Effect.triggerEvt "xrSessionActivated"]
    | Except.ok (h, cl, s2) =>
      Outcome.ok { s2 with animationFrameId_ := some h }
        [Effect.triggerEvt "xrSessionActivated", Effect.scheduleFrame h cl]

/-- Rejection of the `requestSession` promise: the chain at plugin.js 64-80
has no rejection handler, so no plugin code runs at all (only the outstanding
promise is consumed). -/
def activateSessionRejected (s : XrState) : Outcome :=
  Outcome.ok { s with pendingSessionRequests := s.pendingSessionRequests - 1 } []

/-- `handleVrDisplayDeactivate_` synchronous part (plugin.js 83-91):
capability guard, cancel the stored frame handle, call
`this.currentSession.end()` (a TypeError when the session handle is null). -/
def handleVrDisplayDeactivate_ (s : XrState) : Outcome :=
  if !s.xrSupported then Outcome.ok s []
  else
    match tryCancelStored s with
    | Except.error e => Outcome.thrown e s []
    | Except.ok (s1, tr1) =>
      match s1.currentSession with
      | none => Outcome.thrown JsError.typeError s1 tr1
      | some sess =>
        Outcome.ok
          { s1 with endRequested := sess :: s1.endRequested,
                    pendingEnd := s1.pendingEnd + 1 }
          (tr1 ++ [Effect.sessionEndCall sess])

/-- How the `end()` promise settles. -/
inductive EndSettle where
  | resolved
  | rejectedInvalidState
  | rejectedOther
deriving DecidableEq, Repr

/-- What the `catch` handler of `end()` logs: `InvalidStateError` (already
ended) is swallowed silently, any other rejection is logged. -/
def endSettleLog (k : EndSettle) : List Effect :=
  match k with
  | EndSettle.rejectedOther => [Effect.logMsg "session end error"]
  | _ => []

/-- State updates of the `end()` cleanup handler before controls are
re-enabled. -/
def deactCleanupBase (s : XrState) : XrState :=
  { s with pendingEnd := s.pendingEnd - 1, xrActive := false,
           currentSession := none, rendererSessionSet := false }

/-- Settlement of `currentSession.end()` (plugin.js 91-102): the `catch`
swallows `InvalidStateError` silently and logs any other error; in every case
the following `then` performs the cleanup and reschedules on the desktop
clock. -/
def deactivateEndSettled (k : EndSettle) (s : XrState) : Outcome :=
  if s.pendingEnd = 0 then Outcome.ok s []
  else
    if !(deactCleanupBase s).controls3d then
      Outcome.thrown JsError.typeError (deactCleanupBase s)
        (endSettleLog k ++ [Effect.setRendererSession false])
    else
      match requestAnimationFrame { deactCleanupBase s with controlsEnabled := true } with
      | Except.error e =>
        Outcome.thrown e { deactCleanupBase s with controlsEnabled := true }
          (endSettleLog k ++ [Effect.setRendererSession false, Effect.enableControls,
                     Effect.triggerEvt "xrSessionDeactivated"])
      | Except.ok (h, cl, s3) =>
        Outcome.ok { s3 with animationFrameId_ := some h }
          (endSettleLog k ++ [Effect.setRendererSession false, Effect.enableControls,
                     Effect.triggerEvt "xrSessionDeactivated", Effect.scheduleFrame h cl])

/-- Texture-dirtying part of the render step (plugin.js 131-135). -/
def animateTexture (s : XrState) : XrState × List Effect :=
  if s.videoReady then ({ s with videoTextureDirty := true }, [Effect.textureDirty])
  else (s, [])

/-- `animate_` (plugin.js 127-149): no-op unless initialized; mark the texture
dirty when enough video data is buffered, refresh the camera direction,
schedule the next frame, advance desktop controls or sample the pose, render. -/
def animate_ (xrFrame : Bool) (s : XrState) : Outcome :=
  if !s.initialized_ then Outcome.ok s []
  else
    match requestAnimationFrame (animateTexture s).1 with
    | Except.error e =>
      Outcome.thrown e (animateTexture s).1
        ((animateTexture s).2 ++ [Effect.cameraDirUpdate])
    | Except.ok (h, cl, sB) =>
      if !sB.xrActive then
        if !sB.controls3d then
          Outcome.thrown JsError.typeError { sB with animationFrameId_ := some h }
            ((animateTexture s).2 ++ [Effect.cameraDirUpdate, Effect.scheduleFrame h cl])
        else
          Outcome.ok { sB with animationFrameId_ := some h }
            ((animateTexture s).2 ++ [Effect.cameraDirUpdate, Effect.scheduleFrame h cl,
              Effect.controlsUpdate, Effect.renderCall])
      else
        Outcome.ok { sB with animationFrameId_ := some h }
          ((animateTexture s).2 ++ [Effect.cameraDirUpdate, Effect.scheduleFrame h cl] ++
            (if xrFrame then [Effect.poseSample, Effect.triggerEvt "xrCameraUpdate"]
             else []) ++ [Effect.renderCall])

/-- `handleResize_` (plugin.js 151-158): resize the renderer output and update
the camera aspect ratio from the player's current dimensions. -/
def handleResize_ (w ht : Nat) (s : XrState) : Outcome :=
  Outcome.ok { s with rendererSize := (w, ht), cameraAspect := (w, ht) }
    [Effect.resizeRenderer w ht]

/-- Teardown phase of `reset` (plugin.js 283-286): dispose the orbit controls. -/
def phDisposeControls (s : XrState) : XrState × List Effect :=
  if s.controls3d then
    ({ s with controls3d := false, controlsEnabled := false }, [Effect.disposeControls3d])
  else (s, [])

/-- Teardown phase of `reset` (plugin.js 288-291): dispose the canvas player
controls. -/
def phDisposeCanvasControls (s : XrState) : XrState × List Effect :=
  if s.canvasPlayerControls then
    ({ s with canvasPlayerControls := false }, [Effect.disposeCanvasControls])
  else (s, [])

/-- Teardown phase of `reset` (plugin.js 293-296): remove the four window
listeners registered by `init` (the player `fullscreenchange` subscription is
not among them). -/
def phRemoveWindowListeners (s : XrState) : XrState × List Effect :=
  ({ s with windowListeners :=
      ((((s.windowListeners.erase EvtName.winResize).erase
          EvtName.vrdisplaypresentchange).erase
          EvtName.vrdisplayactivate).erase EvtName.vrdisplaydeactivate) },
   [Effect.removeListener EvtName.winResize,
    Effect.removeListener EvtName.vrdisplaypresentchange,
    Effect.removeListener EvtName.vrdisplayactivate,
    Effect.removeListener EvtName.vrdisplaydeactivate])

/-- Teardown phase of `reset` (plugin.js 298-310): restore the stock big play
button, remove the VR play button; the cardboard check queries the player's
direct children (where the button never lives, it is on the control bar). -/
def phRestoreButtons (s : XrState) : XrState × List Effect :=
  let d : XrState × List Effect :=
    if !s.hasBigPlayButton then
      ({ s with hasBigPlayButton := true }, [Effect.restoreBigPlayButton])
    else (s, [])
  let e5 : XrState × List Effect :=
    if d.1.hasBigVrPlayButton then
      ({ d.1 with hasBigVrPlayButton := false }, d.2 ++ [Effect.removeVrButton])
    else d
  if e5.1.playerHasCardboard then
    ({ e5.1 with hasCardboardButton := false }, e5.2 ++ [Effect.removeCardboard])
  else e5

/-- Teardown phase of `reset` (plugin.js 312-316): restore the video element
style. -/
def phRestoreVideo (s : XrState) : XrState × List Effect :=
  ({ s with videoStyleHidden := false }, [Effect.restoreVideoStyle])

/-- Teardown phase of `reset` (plugin.js 318-321): detach the rendering
canvas. -/
def phRemoveCanvas (s : XrState) : XrState × List Effect :=
  if s.renderedCanvas then
    ({ s with renderedCanvas := false }, [Effect.removeCanvas])
  else (s, [])

/-- The pure part of the `reset` teardown (plugin.js 283-321), before the
frame-handle cancellation. -/
def teardownPure (s : XrState) : XrState × List Effect :=
  pseq (pseq (pseq (pseq (pseq (phDisposeControls s)
    phDisposeCanvasControls) phRemoveWindowListeners) phRestoreButtons)
    phRestoreVideo) phRemoveCanvas

/-- Body of `reset` after the initialization guard (plugin.js 283-325), up to
but not including the final clearing of the flag. -/
def resetTeardown (s : XrState) : Outcome :=
  match (teardownPure s).1.animationFrameId_ with
  | none => Outcome.ok (teardownPure s).1 (teardownPure s).2
  | some hid =>
    match cancelAnimationFrame hid (teardownPure s).1 with
    | Except.error e => Outcome.thrown e (teardownPure s).1 (teardownPure s).2
    | Except.ok (cl, s9) => Outcome.ok s9 ((teardownPure s).2 ++ [Effect.cancelFrame hid cl])

/-- `reset` (plugin.js 278-328): no-op when not initialized; otherwise full
teardown, and only then `this.initialized_ = false` as the final statement. -/
def reset (s : XrState) : Outcome :=
  if !s.initialized_ then Outcome.ok s []
  else
    (resetTeardown s).andThen (fun s2 =>
      Outcome.ok { s2 with initialized_ := false } [Effect.setInitializedFalse])

/-- Allocation part of `init` (plugin.js 163-232): capability flag cleared,
camera/scene/texture/renderer built, play button swapped, canvas inserted,
video hidden, `xrActive` cleared, desktop controls created when absent. -/
def initAlloc (s : XrState) : XrState × List Effect :=
  if !s.controls3d then
    ({ s with xrSupported := false, hasBigPlayButton := false, hasBigVrPlayButton := true,
              renderedCanvas := true, videoStyleHidden := true, xrActive := false,
              controls3d := true, controlsEnabled := true, canvasPlayerControls := true },
     [Effect.allocScene, Effect.swapToVrButton, Effect.insertCanvas, Effect.hideVideoStyle])
  else
    ({ s with xrSupported := false, hasBigPlayButton := false, hasBigVrPlayButton := true,
              renderedCanvas := true, videoStyleHidden := true, xrActive := false },
     [Effect.allocScene, Effect.swapToVrButton, Effect.insertCanvas, Effect.hideVideoStyle])

/-- Probe part of `init` (plugin.js 234-251): when the immersive API is
present, enable renderer XR and start the asynchronous capability probe; when
absent, log — and then the `self.completeInitialization()` call at line 251
dereferences the (hoisted, unassigned) `self` and throws a TypeError. -/
def initProbe (s : XrState) : Outcome :=
  if s.xrAvailable then
    Outcome.ok { s with rendererXrEnabled := true, pendingProbe := s.pendingProbe + 1 }
      [Effect.probeCall]
  else
    Outcome.thrown JsError.typeError s [Effect.logMsg "web xr not available"]

/-- `completeInitialization` (plugin.js 263-266). -/
def completeInitialization (s : XrState) : Outcome :=
  Outcome.ok { s with initialized_ := true }
    [Effect.setInitializedTrue, Effect.triggerEvt "initialized"]

/-- First frame scheduling inside `init` (plugin.js 253). -/
def initScheduleFrame (s : XrState) : Outcome :=
  match requestAnimationFrame s with
  | Except.error e => Outcome.thrown e s []
  | Except.ok (h, cl, s2) =>
    Outcome.ok { s2 with animationFrameId_ := some h } [Effect.scheduleFrame h cl]

def addListenerOnce (e : EvtName) (l : List EvtName) : List EvtName :=
  if e ∈ l then l else l ++ [e]

/-- Event wiring at the end of `init` (plugin.js 255-259): player
`fullscreenchange` (accumulating), then the four window listeners (identical
registrations dedupe). -/
def initWire (s : XrState) : Outcome :=
  Outcome.ok
    { s with playerFsSubs := s.playerFsSubs + 1,
             windowListeners :=
               addListenerOnce EvtName.vrdisplaydeactivate
                 (addListenerOnce EvtName.vrdisplayactivate
                   (addListenerOnce EvtName.winResize
                     (addListenerOnce EvtName.vrdisplaypresentchange s.windowListeners))) }
    [Effect.onPlayerFullscreen, Effect.addListener EvtName.vrdisplaypresentchange,
     Effect.addListener EvtName.winResize, Effect.addListener EvtName.vrdisplayactivate,
     Effect.addListener EvtName.vrdisplaydeactivate]

/-- `init` (plugin.js 160-261): reset, allocate, start the probe, set the
initialization flag, schedule the first frame, wire the event listeners — in
that source order. -/
def init (s : XrState) : Outcome :=
  (reset s).andThen (fun s0 =>
    (Outcome.ok (initAlloc s0).1 (initAlloc s0).2).andThen (fun s1 =>
      (initProbe s1).andThen (fun s2 =>
        (completeInitialization s2).andThen (fun s3 =>
          (initScheduleFrame s3).andThen initWire))))

/-- State updates of the supported-probe branch: set the capability flag and
add the cardboard button when absent (`addCardboardButton_`, plugin.js
268-272). -/
def probeApply (s : XrState) : XrState × List Effect :=
  if !s.hasCardboardButton then
    ({ s with pendingProbe := s.pendingProbe - 1, xrSupported := true,
              hasCardboardButton := true }, [Effect.addCardboard])
  else
    ({ s with pendingProbe := s.pendingProbe - 1, xrSupported := true }, [])

/-- Resolution of the `isSessionSupported` probe (plugin.js 238-246): set the
capability flag and add the cardboard button on success, log otherwise. -/
def probeResolved (supported : Bool) (s : XrState) : Outcome :=
  if s.pendingProbe = 0 then Outcome.ok s []
  else
    if supported then
      Outcome.ok (probeApply s).1
        ((probeApply s).2 ++ [Effect.logMsg "webxr session supported"])
    else
      Outcome.ok { s with pendingProbe := s.pendingProbe - 1 }
        [Effect.logMsg "web xr device not found, using orbit controls"]

/-- `dispose` (plugin.js 330-333): reset, then the parent plugin dispose
(which detaches the plugin's player subscriptions). -/
def dispose (s : XrState) : Outcome :=
  (reset s).andThen (fun s1 =>
    Outcome.ok { s1 with playerFsSubs := 0 } [Effect.superDispose])

/-- Delivery of a scheduled frame callback `(h, cl)`: the callback leaves the
pending set and `animate_` runs; only the session clock supplies an `XRFrame`. -/
def deliverFrame (h : Nat) (cl : Clock) (s : XrState) : Outcome :=
  animate_ (cl = Clock.session)
    { s with pending := s.pending.filter (fun x => !(x = (h, cl) : Bool)) }

end Xr

/-- An immersive-session activation completed atomically: synchronous handler,
session promise fulfilment, reference-space promise fulfilment. -/
def activateSuccess (sess : Nat) (s : XrState) : Outcome :=
  (Xr.handleVrDisplayActivate_ s).andThen (fun s1 =>
    (Xr.activateSessionResolved sess s1).andThen Xr.activateRefSpaceResolved)

/-- An activation attempt whose session request rejects, completed atomically. -/
def activateRejectFull (s : XrState) : Outcome :=
  (Xr.handleVrDisplayActivate_ s).andThen Xr.activateSessionRejected

/-- A deactivation completed atomically: synchronous handler plus settlement
of the `end()` promise chain. -/
def deactivateFull (k : Xr.EndSettle) (s : XrState) : Outcome :=
  (Xr.handleVrDisplayDeactivate_ s).andThen (Xr.deactivateEndSettled k)

/-- The clock the wrapper `requestAnimationFrame` dispatched to (none when the
dispatch threw). -/
def rafClockOf (s : XrState) : Option Clock :=
  match Xr.requestAnimationFrame s with
  | Except.ok (_, cl, _) => some cl
  | Except.error _ => none

/-- The clock the wrapper `cancelAnimationFrame` dispatched to (none when the
dispatch threw). -/
def cafClockOf (id : Nat) (s : XrState) : Option Clock :=
  match Xr.cancelAnimationFrame id s with
  | Except.ok (cl, _) => some cl
  | Except.error _ => none

def isSetInitTrue : Effect → Bool
  | Effect.setInitializedTrue => true
  | _ => false

def isScheduleFrame : Effect → Bool
  | Effect.scheduleFrame _ _ => true
  | _ => false

def isWireEffect : Effect → Bool
  | Effect.addListener _ => true
  | Effect.onPlayerFullscreen => true
  | _ => false

def isSessionEndCall : Effect → Bool
  | Effect.sessionEndCall _ => true
  | _ => false

def isLog : Effect → Bool
  | Effect.logMsg _ => true
  | _ => false

/-- The effect kinds the `reset` teardown can perform. -/
def teardownEffectOk : Effect → Bool
  | Effect.disposeControls3d => true
  | Effect.disposeCanvasControls => true
  | Effect.removeListener _ => true
  | Effect.restoreBigPlayButton => true
  | Effect.removeVrButton => true
  | Effect.removeCardboard => true
  | Effect.restoreVideoStyle => true
  | Effect.removeCanvas => true
  | Effect.cancelFrame _ _ => true
  | _ => false

/-- Effects that may legitimately precede the setting of the initialization
flag inside `init`: anything that is neither the flag-set itself, nor a frame
scheduling, nor event wiring. -/
def preInitEffect (e : Effect) : Bool :=
  !isSetInitTrue e && !isScheduleFrame e && !isWireEffect e

/-- Fine-grained environment steps: each public entry point, each promise
continuation, and each frame-callback delivery is one step. Event-triggered
handlers require the corresponding window listener to be registered. -/
inductive Step : XrState → XrState → Prop where
  | initEv {s s2 : XrState} {tr : List Effect} :
      Xr.init s = Outcome.ok s2 tr → Step s s2
  | probeEv {s s2 : XrState} {tr : List Effect} (b : Bool) :
      Xr.probeResolved b s = Outcome.ok s2 tr → Step s s2
  | activateEv {s s2 : XrState} {tr : List Effect} :
      EvtName.vrdisplayactivate ∈ s.windowListeners →
      Xr.handleVrDisplayActivate_ s = Outcome.ok s2 tr → Step s s2
  | sessionOkEv {s s2 : XrState} {tr : List Effect} (sess : Nat) :
      Xr.activateSessionResolved sess s = Outcome.ok s2 tr → Step s s2
  | sessionRejEv {s s2 : XrState} {tr : List Effect} :
      Xr.activateSessionRejected s = Outcome.ok s2 tr → Step s s2
  | refSpaceEv {s s2 : XrState} {tr : List Effect} :
      Xr.activateRefSpaceResolved s = Outcome.ok s2 tr → Step s s2
  | deactivateEv {s s2 : XrState} {tr : List Effect} :
      EvtName.vrdisplaydeactivate ∈ s.windowListeners →
      Xr.handleVrDisplayDeactivate_ s = Outcome.ok s2 tr → Step s s2
  | endSettleEv {s s2 : XrState} {tr : List Effect} (k : Xr.EndSettle) :
      Xr.deactivateEndSettled k s = Outcome.ok s2 tr → Step s s2
  | frameEv {s s2 : XrState} {tr : List Effect} (h : Nat) (cl : Clock) :
      (h, cl) ∈ s.pending →
      Xr.deliverFrame h cl s = Outcome.ok s2 tr → Step s s2
  | resizeEv {s s2 : XrState} {tr : List Effect} (w ht : Nat) :
      Xr.handleResize_ w ht s = Outcome.ok s2 tr → Step s s2
  | resetEv {s s2 : XrState} {tr : List Effect} :
      Xr.reset s = Outcome.ok s2 tr → Step s s2
  | disposeEv {s s2 : XrState} {tr : List Effect} :
      Xr.dispose s = Outcome.ok s2 tr → Step s s2

/-- States reachable from the constructor state by fine-grained steps. -/
inductive ReachFG : XrState → Prop where
  | start : ReachFG initialState
  | step {s s2 : XrState} : ReachFG s → Step s s2 → ReachFG s2

/-- Coarse environment steps: every asynchronous transition runs to
completion atomically (no overlap between transitions). -/
inductive StepA : XrState → XrState → Prop where
  | initEv {s s2 : XrState} {tr : List Effect} :
      Xr.init s = Outcome.ok s2 tr → StepA s s2
  | probeEv {s s2 : XrState} {tr : List Effect} (b : Bool) :
      Xr.probeResolved b s = Outcome.ok s2 tr → StepA s s2
  | activateOk {s s2 : XrState} {tr : List Effect} (sess : Nat) :
      activateSuccess sess s = Outcome.ok s2 tr → StepA s s2
  | activateRej {s s2 : XrState} {tr : List Effect} :
      activateRejectFull s = Outcome.ok s2 tr → StepA s s2
  | deactivateOk {s s2 : XrState} {tr : List Effect} (k : Xr.EndSettle) :
      deactivateFull k s = Outcome.ok s2 tr → StepA s s2
  | frameEv {s s2 : XrState} {tr : List Effect} (h : Nat) (cl : Clock) :
      (h, cl) ∈ s.pending →
      Xr.deliverFrame h cl s = Outcome.ok s2 tr → StepA s s2
  | resizeEv {s s2 : XrState} {tr : List Effect} (w ht : Nat) :
      Xr.handleResize_ w ht s = Outcome.ok s2 tr → StepA s s2
  | resetEv {s s2 : XrState} {tr : List Effect} :
      Xr.reset s = Outcome.ok s2 tr → StepA s s2
  | disposeEv {s s2 : XrState} {tr : List Effect} :
      Xr.dispose s = Outcome.ok s2 tr → StepA s s2

/-- States reachable by non-overlapping (atomically completed) transitions. -/
inductive ReachAtomic : XrState → Prop where
  | start : ReachAtomic initialState
  | step {s s2 : XrState} : ReachAtomic s → StepA s s2 → ReachAtomic s2

/-- Coarse steps as in `StepA`, but `init` is only invoked while no session
handle is held (no re-initialization during an active session). -/
inductive StepC3 : XrState → XrState → Prop where
  | initEv {s s2 : XrState} {tr : List Effect} :
      s.currentSession = none → Xr.init s = Outcome.ok s2 tr → StepC3 s s2
  | probeEv {s s2 : XrState} {tr : List Effect} (b : Bool) :
      Xr.probeResolved b s = Outcome.ok s2 tr → StepC3 s s2
  | activateOk {s s2 : XrState} {tr : List Effect} (sess : Nat) :
      activateSuccess sess s = Outcome.ok s2 tr → StepC3 s s2
  | activateRej {s s2 : XrState} {tr : List Effect} :
      activateRejectFull s = Outcome.ok s2 tr → StepC3 s s2
  | deactivateOk {s s2 : XrState} {tr : List Effect} (k : Xr.EndSettle) :
      deactivateFull k s = Outcome.ok s2 tr → StepC3 s s2
  | frameEv {s s2 : XrState} {tr : List Effect} (h : Nat) (cl : Clock) :
      (h, cl) ∈ s.pending →
      Xr.deliverFrame h cl s = Outcome.ok s2 tr → StepC3 s s2
  | resizeEv {s s2 : XrState} {tr : List Effect} (w ht : Nat) :
      Xr.handleResize_ w ht s = Outcome.ok s2 tr → StepC3 s s2
  | resetEv {s s2 : XrState} {tr : List Effect} :
      Xr.reset s = Outcome.ok s2 tr → StepC3 s s2
  | disposeEv {s s2 : XrState} {tr : List Effect} :
      Xr.dispose s = Outcome.ok s2 tr → StepC3 s s2

/-- States reachable by atomically completed transitions where `init` is only
called with a null session handle. -/
inductive ReachAtC3 : XrState → Prop where
  | start : ReachAtC3 initialState
  | step {s s2 : XrState} : ReachAtC3 s → StepC3 s s2 → ReachAtC3 s2

/-- No promise of the plugin is outstanding. -/
def countersZero (s : XrState) : Prop :=
  s.pendingSessionRequests = 0 ∧ s.pendingRefSpace = 0 ∧ s.pendingEnd = 0

/-- Inductive invariant for the session-presence claim. -/
def InvC3 (s : XrState) : Prop :=
  s.currentSession.isSome = s.xrActive ∧ countersZero s

/-- Inductive invariant for the single-outstanding-frame-handle claim. -/
def InvHandles (s : XrState) : Prop :=
  (s.pending = [] ∨ ∃ h, s.pending = [(h, clockOf s)] ∧ s.animationFrameId_ = some h) ∧
  (s.initialized_ = false → s.pending = []) ∧
  (s.controls3d = true → s.initialized_ = true) ∧
  countersZero s

/- Concrete scenario states used by the counterexamples. -/

/-- After the first `init` (triggered by `loadedmetadata`). -/
def cInit : XrState := (Xr.init initialState).st

/-- After the capability probe resolved with support. -/
def cProbe : XrState := (Xr.probeResolved true cInit).st

/-- After the synchronous part of an activation. -/
def cActStart : XrState := (Xr.handleVrDisplayActivate_ cProbe).st

/-- After the session promise fulfilled with session 5. -/
def cSessionSet : XrState := (Xr.activateSessionResolved 5 cActStart).st

/-- Fully active immersive state. -/
def cActive : XrState := (Xr.activateRefSpaceResolved cSessionSet).st

/-- A second `init` run from the active state (new media loaded mid-session). -/
def cReinit : XrState := (Xr.init cActive).st

/-- The session-request promise rejected after the synchronous activation part. -/
def cRejected : XrState := (Xr.activateSessionRejected cActStart).st

/-- A second synchronous activation overlapping the first. -/
def cActStart2 : XrState := (Xr.handleVrDisplayActivate_ cActStart).st

def cSess2 : XrState := (Xr.activateSessionResolved 7 cActStart2).st

def cRef2 : XrState := (Xr.activateRefSpaceResolved cSess2).st

def cSess3 : XrState := (Xr.activateSessionResolved 8 cRef2).st

/-- Both overlapping activations have scheduled a frame: two pending
render-step callbacks. -/
def cTwoLoops : XrState := (Xr.activateRefSpaceResolved cSess3).st

/-- After the synchronous part of a deactivation from the active state. -/
def cDeactStart : XrState := (Xr.handleVrDisplayDeactivate_ cActive).st

/-- Back to inactive after the `end()` promise resolved; the session end event
is about to dispatch `vrdisplaydeactivate` once more. -/
def cInactive : XrState := (Xr.deactivateEndSettled Xr.EndSettle.resolved cDeactStart).st

/-- A minimal state with an outstanding `end()` promise. -/
def cEndPending : XrState := { initialState with pendingEnd := 1, controls3d := true }

theorem ok_of_isOk (o : Outcome) (h : o.isOk = true) : o = Outcome.ok o.st o.tr := by
  cases o with
  | ok s t => rfl
  | thrown e s t => simp [Outcome.isOk] at h

theorem reach_cInit : ReachFG cInit :=
  ReachFG.step ReachFG.start (Step.initEv (ok_of_isOk _ (by decide)))

theorem reach_cProbe : ReachFG cProbe :=
  ReachFG.step reach_cInit (Step.probeEv true (ok_of_isOk _ (by decide)))

theorem reach_cActStart : ReachFG cActStart :=
  ReachFG.step reach_cProbe (Step.activateEv (by decide) (ok_of_isOk _ (by decide)))

theorem reach_cSessionSet : ReachFG cSessionSet :=
  ReachFG.step reach_cActStart (Step.sessionOkEv 5 (ok_of_isOk _ (by decide)))

theorem reach_cActive : ReachFG cActive :=
  ReachFG.step reach_cSessionSet (Step.refSpaceEv (ok_of_isOk _ (by decide)))

theorem reach_cReinit : ReachFG cReinit :=
  ReachFG.step reach_cActive (Step.initEv (ok_of_isOk _ (by decide)))

theorem reach_cActStart2 : ReachFG cActStart2 :=
  ReachFG.step reach_cActStart (Step.activateEv (by decide) (ok_of_isOk _ (by decide)))

theorem reach_cSess2 : ReachFG cSess2 :=
  ReachFG.step reach_cActStart2 (Step.sessionOkEv 7 (ok_of_isOk _ (by decide)))

theorem reach_cRef2 : ReachFG cRef2 :=
  ReachFG.step reach_cSess2 (Step.refSpaceEv (ok_of_isOk _ (by decide)))

theorem reach_cSess3 : ReachFG cSess3 :=
  ReachFG.step reach_cRef2 (Step.sessionOkEv 8 (ok_of_isOk _ (by decide)))

theorem reach_cTwoLoops : ReachFG cTwoLoops :=
  ReachFG.step reach_cSess3 (Step.refSpaceEv (ok_of_isOk _ (by decide)))

theorem reach_cDeactStart : ReachFG cDeactStart :=
  ReachFG.step reach_cActive (Step.deactivateEv (by decide) (ok_of_isOk _ (by decide)))

theorem reach_cInactive : ReachFG cInactive :=
  ReachFG.step reach_cDeactStart
    (Step.endSettleEv Xr.EndSettle.resolved (ok_of_isOk _ (by decide)))

/-- C1: the plugin's `requestAnimationFrame` and `cancelAnimationFrame`
wrappers dispatch to the immersive session's scheduling primitive exactly when
`xrActive` is true at the moment of the call, and otherwise to the host
player's scheduling primitive. Both wrappers are pure functions of the state
at the call, so the decision is re-evaluated on every call and never cached. -/
theorem C1_clock_dispatch (s : XrState) (id : Nat) :
    rafClockOf s = (if s.xrActive then s.currentSession.map (fun _ => Clock.session)
                    else some Clock.player) ∧
    cafClockOf id s = (if s.xrActive then s.currentSession.map (fun _ => Clock.session)
                       else some Clock.player) := by
  cases hx : s.xrActive <;> cases hc : s.currentSession <;>
    simp [rafClockOf, cafClockOf, Xr.requestAnimationFrame, Xr.cancelAnimationFrame, hx, hc]

/-- C2: when the initialization flag is false, the render step `animate_`
returns immediately: the state is unchanged and no further frame is
scheduled, so the frame loop terminates until a new `init` runs. -/
theorem C2_animate_noop (s : XrState) (xf : Bool) (h : s.initialized_ = false) :
    Xr.animate_ xf s = Outcome.ok s [] := by
  simp [Xr.animate_, h]

theorem C2_witness :
    initialState.initialized_ = false ∧
    Xr.animate_ false initialState = Outcome.ok initialState [] :=
  ⟨rfl, C2_animate_noop initialState false rfl⟩

/-- C3 (counterexample): the session-presence invariant fails on the code.
After init, capability-probe resolution, a completed activation, and a second
init (a new `loadedmetadata` arriving during the active session), the
reachable state holds a non-null `currentSession` while `xrActive` is false:
the second init clears `xrActive` but never clears or ends the session. -/
theorem C3_counterexample :
    ReachFG cReinit ∧ cReinit.currentSession = some 5 ∧ cReinit.xrActive = false :=
  ⟨reach_cReinit, by decide, by decide⟩

/-- C4 (counterexample): after an activation attempt whose session request
rejects, the state machine does remain inactive, but the desktop controls are
left disabled (they were disabled before the request and the rejected chain
runs no handler), and nothing is logged along the whole attempt — contrary to
the claim that controls remain enabled and the rejection is logged. -/
theorem C4_counterexample :
    ReachFG cActStart ∧ cActStart.pendingSessionRequests = 1 ∧
    Xr.activateSessionRejected cActStart = Outcome.ok cRejected [] ∧
    cRejected.controlsEnabled = false ∧
    cRejected.xrActive = false ∧ cRejected.currentSession = none ∧
    (((Xr.handleVrDisplayActivate_ cProbe).tr ++
        (Xr.activateSessionRejected cActStart).tr).all (fun e => !isLog e)) = true :=
  ⟨reach_cActStart, by decide, by decide, by decide, by decide, by decide, by decide⟩

/-- C5: when `currentSession.end()` rejects with the already-ended
`InvalidStateError`, the catch swallows it with no log and no exception, and
the cleanup chain still runs to completion: `xrActive` false, `currentSession`
null, controls re-enabled, the deactivation event emitted, and a frame
scheduled on the desktop clock — the machine reaches Inactive. -/
theorem C5_already_ended_swallowed (s : XrState) (h1 : 0 < s.pendingEnd)
    (h2 : s.controls3d = true) :
    Xr.deactivateEndSettled Xr.EndSettle.rejectedInvalidState s =
      Outcome.ok
        { s with pendingEnd := s.pendingEnd - 1, xrActive := false,
                 currentSession := none, rendererSessionSet := false,
                 controlsEnabled := true, nextHandle := s.nextHandle + 1,
                 pending := s.pending ++ [(s.nextHandle, Clock.player)],
                 animationFrameId_ := some s.nextHandle }
        [Effect.setRendererSession false, Effect.enableControls,
         Effect.triggerEvt "xrSessionDeactivated",
         Effect.scheduleFrame s.nextHandle Clock.player] := by
  have hz : ¬ s.pendingEnd = 0 := Nat.pos_iff_ne_zero.mp h1
  simp [Xr.deactivateEndSettled, Xr.deactCleanupBase, Xr.endSettleLog,
    Xr.requestAnimationFrame, hz, h2]

theorem C5_witness :
    0 < cEndPending.pendingEnd ∧ cEndPending.controls3d = true ∧
    Xr.deactivateEndSettled Xr.EndSettle.rejectedInvalidState cEndPending =
      Outcome.ok
        { cEndPending with
          pendingEnd := cEndPending.pendingEnd - 1, xrActive := false,
          currentSession := none, rendererSessionSet := false,
          controlsEnabled := true, nextHandle := cEndPending.nextHandle + 1,
          pending := cEndPending.pending ++ [(cEndPending.nextHandle, Clock.player)],
          animationFrameId_ := some cEndPending.nextHandle }
        [Effect.setRendererSession false, Effect.enableControls,
         Effect.triggerEvt "xrSessionDeactivated",
         Effect.scheduleFrame cEndPending.nextHandle Clock.player] :=
  ⟨by decide, rfl, C5_already_ended_swallowed cEndPending (by decide) rfl⟩

/-- C6 (counterexample): `reset()` called from the Active state tears down the
canvas, controls, window listeners, frame handle and flag, but it does not end
the session (`end()` is never called, `currentSession` and `xrActive` are left
set), and the player `fullscreenchange` subscription registered by init is
not removed. -/
theorem C6_counterexample :
    ReachFG cActive ∧ cActive.initialized_ = true ∧ cActive.xrActive = true ∧
    cActive.currentSession = some 5 ∧ cActive.playerFsSubs = 1 ∧
    (Xr.reset cActive).isOk = true ∧
    (Xr.reset cActive).st.endRequested = [] ∧
    (Xr.reset cActive).st.currentSession = some 5 ∧
    (Xr.reset cActive).st.xrActive = true ∧
    (Xr.reset cActive).st.playerFsSubs = 1 ∧
    ((Xr.reset cActive).tr.all (fun e => !isSessionEndCall e)) = true :=
  ⟨reach_cActive, by decide, by decide, by decide, by decide, by decide, by decide,
   by decide, by decide, by decide, by decide⟩

/-- C7 (counterexample): two overlapping activations (two `vrdisplayactivate`
dispatches before the first session promise resolves) leave two concurrently
pending render-step callbacks: each resolution chain schedules its own frame,
and the second synchronous handler only cancelled the stale initial handle. -/
theorem C7_counterexample :
    ReachFG cTwoLoops ∧ cTwoLoops.pending = [(2, Clock.session), (3, Clock.session)] :=
  ⟨reach_cTwoLoops, by decide⟩

/-- C8: at the reachable failing input — xrSupported true, `currentSession`
already null right after a completed deactivation, and the session's own end
listener dispatching a second `vrdisplaydeactivate` — the deactivate handler
evaluates `this.currentSession.end()` on null and a TypeError escapes across
the plugin boundary (after the handler has already cancelled the freshly
scheduled desktop frame). -/
theorem C8_theorem :
    ReachFG cInactive ∧ cInactive.xrSupported = true ∧
    cInactive.currentSession = none ∧
    EvtName.vrdisplaydeactivate ∈ cInactive.windowListeners ∧
    (Xr.handleVrDisplayDeactivate_ cInactive).thrownErr = some JsError.typeError ∧
    (Xr.handleVrDisplayDeactivate_ cInactive).st.pending = [] :=
  ⟨reach_cInactive, by decide, by decide, by decide, by decide, by decide⟩

/-- C9 (counterexample): in the `init` trace the initialization flag is set
(index below) strictly before the first frame scheduling and before the event
wiring, not as the last step; and `reset` clears the flag as its last action,
not its first (the first teardown action is the controls disposal). -/
theorem C9_counterexample :
    (Xr.init initialState).tr.findIdx isSetInitTrue <
      (Xr.init initialState).tr.findIdx isScheduleFrame ∧
    (Xr.init initialState).tr.findIdx isSetInitTrue <
      (Xr.init initialState).tr.findIdx isWireEffect ∧
    Effect.setInitializedTrue ∈ (Xr.init initialState).tr ∧
    Effect.scheduleFrame 1 Clock.player ∈ (Xr.init initialState).tr ∧
    (Xr.reset cInit).tr.getLast? = some Effect.setInitializedFalse ∧
    (Xr.reset cInit).tr.head? = some Effect.disposeControls3d :=
  ⟨by decide, by decide, by decide, by decide, by decide, by decide⟩

/-- C10: when the capability flag `xrSupported` is false, both the activate
and the deactivate handler return at their first statement: the state is
completely unchanged and no effect is performed. -/
theorem C10_unsupported_noop (s : XrState) (h : s.xrSupported = false) :
    Xr.handleVrDisplayActivate_ s = Outcome.ok s [] ∧
    Xr.handleVrDisplayDeactivate_ s = Outcome.ok s [] := by
  constructor <;> simp [Xr.handleVrDisplayActivate_, Xr.handleVrDisplayDeactivate_, h]

theorem C10_witness :
    initialState.xrSupported = false ∧
    Xr.handleVrDisplayActivate_ initialState = Outcome.ok initialState [] ∧
    Xr.handleVrDisplayDeactivate_ initialState = Outcome.ok initialState [] :=
  ⟨rfl, (C10_unsupported_noop initialState rfl).1, (C10_unsupported_noop initialState rfl).2⟩

theorem andThen_ok {o : Outcome} {f : XrState → Outcome} {s2 : XrState} {tr : List Effect}
    (H : o.andThen f = Outcome.ok s2 tr) :
    ∃ s1 tr1 tr2, o = Outcome.ok s1 tr1 ∧ f s1 = Outcome.ok s2 tr2 ∧ tr = tr1 ++ tr2 := by
  cases o with
  | thrown e s t => simp [Outcome.andThen] at H
  | ok s t =>
    simp only [Outcome.andThen] at H
    cases hf : f s with
    | ok ss tt =>
      rw [hf] at H
      injection H with hA hB
      subst hA
      exact ⟨s, t, tt, rfl, hf, hB.symm⟩
    | thrown e ss tt =>
      rw [hf] at H
      exact Outcome.noConfusion H

theorem all_mono {α : Type} {p q : α → Bool} (hpq : ∀ a, p a = true → q a = true)
    {l : List α} (h : l.all p = true) : l.all q = true := by
  simp only [List.all_eq_true] at h ⊢
  exact fun a ha => hpq a (h a ha)

theorem takeWhile_append_all {α : Type} {p : α → Bool} {l1 l2 : List α}
    (h : l1.all p = true) : (l1 ++ l2).takeWhile p = l1 ++ l2.takeWhile p := by
  induction l1 with
  | nil => simp
  | cons a t ih =>
    simp only [List.all_cons, Bool.and_eq_true] at h
    simp [List.takeWhile_cons, h.1, ih h.2]

set_option maxHeartbeats 2000000 in
theorem teardownPure_spec (s : XrState) :
    (Xr.teardownPure s).1.initialized_ = s.initialized_ ∧
    (Xr.teardownPure s).1.xrActive = s.xrActive ∧
    (Xr.teardownPure s).1.currentSession = s.currentSession ∧
    (Xr.teardownPure s).1.animationFrameId_ = s.animationFrameId_ ∧
    (Xr.teardownPure s).1.pending = s.pending ∧
    (Xr.teardownPure s).1.nextHandle = s.nextHandle ∧
    (Xr.teardownPure s).1.pendingSessionRequests = s.pendingSessionRequests ∧
    (Xr.teardownPure s).1.pendingRefSpace = s.pendingRefSpace ∧
    (Xr.teardownPure s).1.pendingEnd = s.pendingEnd ∧
    (Xr.teardownPure s).1.endRequested = s.endRequested ∧
    (Xr.teardownPure s).1.playerFsSubs = s.playerFsSubs ∧
    (Xr.teardownPure s).1.xrSupported = s.xrSupported ∧
    (Xr.teardownPure s).1.controls3d = false ∧
    (Xr.teardownPure s).1.windowListeners =
      ((((s.windowListeners.erase EvtName.winResize).erase
        EvtName.vrdisplaypresentchange).erase EvtName.vrdisplayactivate).erase
        EvtName.vrdisplaydeactivate) ∧
    (Xr.teardownPure s).2.all teardownEffectOk = true := by
  cases h1 : s.controls3d <;> cases h2 : s.canvasPlayerControls <;>
    cases h3 : s.hasBigPlayButton <;> cases h4 : s.hasBigVrPlayButton <;>
      cases h5 : s.playerHasCardboard <;> cases h6 : s.renderedCanvas <;>
        simp [Xr.teardownPure, pseq, Xr.phDisposeControls, Xr.phDisposeCanvasControls,
          Xr.phRemoveWindowListeners, Xr.phRestoreButtons, Xr.phRestoreVideo,
          Xr.phRemoveCanvas, teardownEffectOk, h1, h2, h3, h4, h5, h6]

theorem resetTeardown_ok_spec {s s2 : XrState} {tr : List Effect}
    (H : Xr.resetTeardown s = Outcome.ok s2 tr) :
    s2.initialized_ = s.initialized_ ∧ s2.xrActive = s.xrActive ∧
    s2.currentSession = s.currentSession ∧ s2.animationFrameId_ = s.animationFrameId_ ∧
    s2.nextHandle = s.nextHandle ∧ s2.pendingSessionRequests = s.pendingSessionRequests ∧
    s2.pendingRefSpace = s.pendingRefSpace ∧ s2.pendingEnd = s.pendingEnd ∧
    s2.endRequested = s.endRequested ∧ s2.playerFsSubs = s.playerFsSubs ∧
    s2.xrSupported = s.xrSupported ∧ s2.controls3d = false ∧
    s2.windowListeners = ((((s.windowListeners.erase EvtName.winResize).erase
      EvtName.vrdisplaypresentchange).erase EvtName.vrdisplayactivate).erase
      EvtName.vrdisplaydeactivate) ∧
    tr.all teardownEffectOk = true ∧
    ((s.animationFrameId_ = none ∧ s2.pending = s.pending) ∨
     (∃ hid, s.animationFrameId_ = some hid ∧
       s2.pending = s.pending.filter (fun x => !(x = (hid, clockOf s) : Bool)))) := by
  obtain ⟨p1, p2, p3, p4, p5, p6, p7, p8, p9, p10, p11, p12, p13, p14, p15⟩ :=
    teardownPure_spec s
  unfold Xr.resetTeardown at H
  rw [p4] at H
  cases hA : s.animationFrameId_ with
  | none =>
    rw [hA] at H
    injection H with h1 h2
    subst h1
    subst h2
    refine ⟨p1, p2, p3, ?_, p6, p7, p8, p9, p10, p11, p12, p13, p14, p15,
      Or.inl ⟨rfl, p5⟩⟩
    rw [p4, hA]
  | some hid =>
    rw [hA] at H
    unfold Xr.cancelAnimationFrame at H
    rw [p2, p3] at H
    cases hx : s.xrActive with
    | false =>
      rw [hx] at H
      simp only [Bool.false_eq_true, if_false, Outcome.ok.injEq] at H
      obtain ⟨h1, h2⟩ := H
      subst h1
      subst h2
      refine ⟨?_, ?_, ?_, ?_, ?_, ?_, ?_, ?_, ?_, ?_, ?_, ?_, ?_, ?_,
        Or.inr ⟨hid, rfl, ?_⟩⟩ <;>
        simp_all [clockOf, teardownEffectOk, List.all_append]
    | true =>
      rw [hx] at H
      cases hc : s.currentSession with
      | none =>
        rw [hc] at H
        simp at H
      | some sess =>
        rw [hc] at H
        simp only [if_true, Outcome.ok.injEq] at H
        obtain ⟨h1, h2⟩ := H
        subst h1
        subst h2
        refine ⟨?_, ?_, ?_, ?_, ?_, ?_, ?_, ?_, ?_, ?_, ?_, ?_, ?_, ?_,
          Or.inr ⟨hid, rfl, ?_⟩⟩ <;>
          simp_all [clockOf, teardownEffectOk, List.all_append]

theorem reset_ok_spec {s s2 : XrState} {tr : List Effect}
    (H : Xr.reset s = Outcome.ok s2 tr) :
    (s.initialized_ = false ∧ s2 = s ∧ tr = []) ∨
    (s.initialized_ = true ∧ ∃ s1 tr1, Xr.resetTeardown s = Outcome.ok s1 tr1 ∧
      s2 = { s1 with initialized_ := false } ∧
      tr = tr1 ++ [Effect.setInitializedFalse]) := by
  unfold Xr.reset at H
  cases hI : s.initialized_ with
  | false =>
    rw [hI] at H
    simp only [Bool.not_false, if_true] at H
    injection H with h1 h2
    exact Or.inl ⟨rfl, h1.symm, h2.symm⟩
  | true =>
    rw [hI] at H
    simp only [Bool.not_true, Bool.false_eq_true, if_false] at H
    obtain ⟨s1, tr1, tr2, hT, hF, hTr⟩ := andThen_ok H
    injection hF with h1 h2
    exact Or.inr ⟨rfl, s1, tr1, hT, h1.symm, by rw [hTr, h2]⟩

theorem tryCancel_ok_spec {s s2 : XrState} {tr : List Effect}
    (H : Xr.tryCancelStored s = Except.ok (s2, tr)) :
    s2.initialized_ = s.initialized_ ∧ s2.xrActive = s.xrActive ∧
    s2.currentSession = s.currentSession ∧ s2.controls3d = s.controls3d ∧
    s2.controlsEnabled = s.controlsEnabled ∧
    s2.animationFrameId_ = s.animationFrameId_ ∧ s2.nextHandle = s.nextHandle ∧
    s2.pendingSessionRequests = s.pendingSessionRequests ∧
    s2.pendingRefSpace = s.pendingRefSpace ∧ s2.pendingEnd = s.pendingEnd ∧
    s2.windowListeners = s.windowListeners ∧ s2.playerFsSubs = s.playerFsSubs ∧
    s2.endRequested = s.endRequested ∧ s2.xrSupported = s.xrSupported ∧
    ((s.animationFrameId_ = none ∧ s2.pending = s.pending ∧ tr = []) ∨
     (∃ hid, s.animationFrameId_ = some hid ∧
       s2.pending = s.pending.filter (fun x => !(x = (hid, clockOf s) : Bool)) ∧
       tr = [Effect.cancelFrame hid (clockOf s)])) := by
  unfold Xr.tryCancelStored Xr.cancelAnimationFrame at H
  cases hA : s.animationFrameId_ with
  | none =>
    rw [hA] at H
    simp only [] at H
    simp only [Except.ok.injEq, Prod.mk.injEq] at H
    obtain ⟨h1, h2⟩ := H
    subst h1
    subst h2
    refine ⟨?_, ?_, ?_, ?_, ?_, ?_, ?_, ?_, ?_, ?_, ?_, ?_, ?_, ?_,
      Or.inl ⟨rfl, ?_, ?_⟩⟩ <;> simp_all
  | some hid =>
    rw [hA] at H
    simp only [] at H
    cases hx : s.xrActive with
    | false =>
      rw [if_neg (by simp [hx])] at H
      simp only [] at H
      simp only [Except.ok.injEq, Prod.mk.injEq] at H
      obtain ⟨h1, h2⟩ := H
      subst h1
      subst h2
      refine ⟨?_, ?_, ?_, ?_, ?_, ?_, ?_, ?_, ?_, ?_, ?_, ?_, ?_, ?_,
        Or.inr ⟨hid, rfl, ?_, ?_⟩⟩ <;> simp_all [clockOf]
    | true =>
      rw [if_pos hx] at H
      cases hc : s.currentSession with
      | none =>
        rw [hc] at H
        simp at H
      | some sess =>
        rw [hc] at H
        simp only [] at H
        simp only [Except.ok.injEq, Prod.mk.injEq] at H
        obtain ⟨h1, h2⟩ := H
        subst h1
        subst h2
        refine ⟨?_, ?_, ?_, ?_, ?_, ?_, ?_, ?_, ?_, ?_, ?_, ?_, ?_, ?_,
          Or.inr ⟨hid, rfl, ?_, ?_⟩⟩ <;> simp_all [clockOf]

theorem handleActivate_ok_spec {s s2 : XrState} {tr : List Effect}
    (H : Xr.handleVrDisplayActivate_ s = Outcome.ok s2 tr) :
    (s.xrSupported = false ∧ s2 = s ∧ tr = []) ∨
    (s.xrSupported = true ∧ s.controls3d = true ∧
     s2.initialized_ = s.initialized_ ∧ s2.xrActive = s.xrActive ∧
     s2.currentSession = s.currentSession ∧ s2.controls3d = s.controls3d ∧
     s2.controlsEnabled = false ∧
     s2.animationFrameId_ = s.animationFrameId_ ∧ s2.nextHandle = s.nextHandle ∧
     s2.pendingSessionRequests = s.pendingSessionRequests + 1 ∧
     s2.pendingRefSpace = s.pendingRefSpace ∧ s2.pendingEnd = s.pendingEnd ∧
     s2.windowListeners = s.windowListeners ∧ s2.playerFsSubs = s.playerFsSubs ∧
     s2.endRequested = s.endRequested ∧ s2.xrSupported = s.xrSupported ∧
     s2.initialized_ = s.initialized_ ∧
     tr.all (fun e => !isLog e) = true ∧
     ((s.animationFrameId_ = none ∧ s2.pending = s.pending) ∨
      (∃ hid, s.animationFrameId_ = some hid ∧
        s2.pending = s.pending.filter (fun x => !(x = (hid, clockOf s) : Bool))))) := by
  unfold Xr.handleVrDisplayActivate_ at H
  cases hs : s.xrSupported with
  | false =>
    rw [if_pos (by simp [hs])] at H
    injection H with h1 h2
    exact Or.inl ⟨rfl, h1.symm, h2.symm⟩
  | true =>
    rw [if_neg (by simp [hs])] at H
    split at H
    · exact Outcome.noConfusion H
    · rename_i s1 tr1 hTC
      obtain ⟨q1, q2, q3, q4, q5, q6, q7, q8, q9, q10, q11, q12, q13, q14, q15⟩ :=
        tryCancel_ok_spec hTC
      cases hc3 : s1.controls3d with
      | false =>
        rw [if_pos (by simp [hc3])] at H
        exact Outcome.noConfusion H
      | true =>
        rw [if_neg (by simp [hc3])] at H
        injection H with h1 h2
        subst h1
        subst h2
        rcases q15 with ⟨hA, hP, hT⟩ | ⟨hid, hA, hP, hT⟩ <;>
          subst hT <;>
          refine Or.inr ⟨rfl, by rw [← q4, hc3], ?_, ?_, ?_, ?_, ?_, ?_, ?_, ?_, ?_,
            ?_, ?_, ?_, ?_, ?_, ?_, ?_, ?_⟩ <;>
          simp_all [isLog]

theorem sessionResolved_ok_spec {sess : Nat} {s s2 : XrState} {tr : List Effect}
    (H : Xr.activateSessionResolved sess s = Outcome.ok s2 tr) :
    (s.pendingSessionRequests = 0 ∧ s2 = s ∧ tr = []) ∨
    (0 < s.pendingSessionRequests ∧
     s2 = { s with pendingSessionRequests := s.pendingSessionRequests - 1,
                   rendererSessionSet := true, currentSession := some sess,
                   pendingRefSpace := s.pendingRefSpace + 1 } ∧
     tr = [Effect.addEndListener, Effect.setRendererSession true,
           Effect.requestRefSpaceCall]) := by
  unfold Xr.activateSessionResolved at H
  by_cases hp : s.pendingSessionRequests = 0
  · rw [if_pos hp] at H
    injection H with h1 h2
    exact Or.inl ⟨hp, h1.symm, h2.symm⟩
  · rw [if_neg hp] at H
    injection H with h1 h2
    exact Or.inr ⟨Nat.pos_of_ne_zero hp, h1.symm, h2.symm⟩

theorem refSpaceResolved_ok_spec {s s2 : XrState} {tr : List Effect}
    (H : Xr.activateRefSpaceResolved s = Outcome.ok s2 tr) :
    (s.pendingRefSpace = 0 ∧ s2 = s ∧ tr = []) ∨
    (0 < s.pendingRefSpace ∧ s.currentSession.isSome = true ∧
     s2 = { s with pendingRefSpace := s.pendingRefSpace - 1, xrReferenceSpace := true,
                   xrActive := true, nextHandle := s.nextHandle + 1,
                   pending := s.pending ++ [(s.nextHandle, Clock.session)],
                   animationFrameId_ := some s.nextHandle } ∧
     tr = [Effect.triggerEvt "xrSessionActivated",
           Effect.scheduleFrame s.nextHandle Clock.session]) := by
  unfold Xr.activateRefSpaceResolved Xr.refSpaceApply Xr.requestAnimationFrame at H
  by_cases hp : s.pendingRefSpace = 0
  · rw [if_pos hp] at H
    injection H with h1 h2
    exact Or.inl ⟨hp, h1.symm, h2.symm⟩
  · rw [if_neg hp] at H
    simp only [] at H
    rw [if_pos trivial] at H
    cases hc : s.currentSession with
    | none =>
      rw [hc] at H
      simp only [] at H
      exact Outcome.noConfusion H
    | some sess =>
      rw [hc] at H
      simp only [] at H
      injection H with h1 h2
      exact Or.inr ⟨Nat.pos_of_ne_zero hp, rfl, h1.symm, h2.symm⟩

theorem handleDeactivate_ok_spec {s s2 : XrState} {tr : List Effect}
    (H : Xr.handleVrDisplayDeactivate_ s = Outcome.ok s2 tr) :
    (s.xrSupported = false ∧ s2 = s ∧ tr = []) ∨
    (s.xrSupported = true ∧ (∃ sess, s.currentSession = some sess) ∧
     s2.initialized_ = s.initialized_ ∧ s2.xrActive = s.xrActive ∧
     s2.currentSession = s.currentSession ∧ s2.controls3d = s.controls3d ∧
     s2.controlsEnabled = s.controlsEnabled ∧
     s2.animationFrameId_ = s.animationFrameId_ ∧ s2.nextHandle = s.nextHandle ∧
     s2.pendingSessionRequests = s.pendingSessionRequests ∧
     s2.pendingRefSpace = s.pendingRefSpace ∧ s2.pendingEnd = s.pendingEnd + 1 ∧
     s2.windowListeners = s.windowListeners ∧ s2.playerFsSubs = s.playerFsSubs ∧
     s2.xrSupported = s.xrSupported ∧
     ((s.animationFrameId_ = none ∧ s2.pending = s.pending) ∨
      (∃ hid, s.animationFrameId_ = some hid ∧
        s2.pending = s.pending.filter (fun x => !(x = (hid, clockOf s) : Bool))))) := by
  unfold Xr.handleVrDisplayDeactivate_ at H
  cases hs : s.xrSupported with
  | false =>
    rw [if_pos (by simp [hs])] at H
    injection H with h1 h2
    exact Or.inl ⟨rfl, h1.symm, h2.symm⟩
  | true =>
    rw [if_neg (by simp [hs])] at H
    split at H
    · exact Outcome.noConfusion H
    · rename_i s1 tr1 hTC
      obtain ⟨q1, q2, q3, q4, q5, q6, q7, q8, q9, q10, q11, q12, q13, q14, q15⟩ :=
        tryCancel_ok_spec hTC
      cases hc : s1.currentSession with
      | none =>
        rw [hc] at H
        simp only [] at H
        exact Outcome.noConfusion H
      | some sess =>
        rw [hc] at H
        simp only [] at H
        injection H with h1 h2
        subst h1
        subst h2
        rcases q15 with ⟨hA, hP, hT⟩ | ⟨hid, hA, hP, hT⟩ <;>
          subst hT <;>
          refine Or.inr ⟨rfl, ⟨sess, q3.symm.trans hc⟩, ?_, ?_, ?_, ?_, ?_, ?_, ?_,
            ?_, ?_, ?_, ?_, ?_, ?_, ?_⟩ <;>
          simp_all

theorem endSettled_ok_spec {k : Xr.EndSettle} {s s2 : XrState} {tr : List Effect}
    (H : Xr.deactivateEndSettled k s = Outcome.ok s2 tr) :
    (s.pendingEnd = 0 ∧ s2 = s ∧ tr = []) ∨
    (0 < s.pendingEnd ∧ s.controls3d = true ∧
     s2 = { s with pendingEnd := s.pendingEnd - 1, xrActive := false,
                   currentSession := none, rendererSessionSet := false,
                   controlsEnabled := true, nextHandle := s.nextHandle + 1,
                   pending := s.pending ++ [(s.nextHandle, Clock.player)],
                   animationFrameId_ := some s.nextHandle } ∧
     tr = Xr.endSettleLog k ++ [Effect.setRendererSession false, Effect.enableControls,
       Effect.triggerEvt "xrSessionDeactivated",
       Effect.scheduleFrame s.nextHandle Clock.player]) := by
  unfold Xr.deactivateEndSettled Xr.deactCleanupBase Xr.requestAnimationFrame at H
  by_cases hp : s.pendingEnd = 0
  · rw [if_pos hp] at H
    injection H with h1 h2
    exact Or.inl ⟨hp, h1.symm, h2.symm⟩
  · rw [if_neg hp] at H
    simp only [] at H
    cases hc3 : s.controls3d with
    | false =>
      rw [if_pos (by simp [hc3])] at H
      exact Outcome.noConfusion H
    | true =>
      rw [if_neg (by simp [hc3])] at H
      rw [if_neg (by simp)] at H
      simp only [] at H
      injection H with h1 h2
      rw [hc3] at h1
      exact Or.inr ⟨Nat.pos_of_ne_zero hp, rfl, h1.symm, h2.symm⟩

theorem animate_ok_spec {xf : Bool} {s s2 : XrState} {tr : List Effect}
    (H : Xr.animate_ xf s = Outcome.ok s2 tr) :
    (s.initialized_ = false ∧ s2 = s ∧ tr = []) ∨
    (s.initialized_ = true ∧
     s2.initialized_ = s.initialized_ ∧ s2.xrActive = s.xrActive ∧
     s2.currentSession = s.currentSession ∧ s2.controls3d = s.controls3d ∧
     s2.controlsEnabled = s.controlsEnabled ∧
     s2.windowListeners = s.windowListeners ∧ s2.playerFsSubs = s.playerFsSubs ∧
     s2.xrSupported = s.xrSupported ∧
     s2.pendingSessionRequests = s.pendingSessionRequests ∧
     s2.pendingRefSpace = s.pendingRefSpace ∧ s2.pendingEnd = s.pendingEnd ∧
     s2.pending = s.pending ++ [(s.nextHandle, clockOf s)] ∧
     s2.animationFrameId_ = some s.nextHandle ∧ s2.nextHandle = s.nextHandle + 1) := by
  unfold Xr.animate_ Xr.animateTexture Xr.requestAnimationFrame at H
  cases hI : s.initialized_ with
  | false =>
    rw [if_pos (by simp [hI])] at H
    injection H with h1 h2
    exact Or.inl ⟨rfl, h1.symm, h2.symm⟩
  | true =>
    rw [if_neg (by simp [hI])] at H
    cases hv : s.videoReady with
    | false =>
      simp only [if_neg (show ¬(s.videoReady = true) by simp [hv])] at H
      cases hx : s.xrActive with
      | false =>
        simp only [if_neg (show ¬(s.xrActive = true) by simp [hx])] at H
        simp only [if_pos (show (!s.xrActive) = true by simp [hx])] at H
        cases hc3 : s.controls3d with
        | false =>
          simp only [if_pos (show (!s.controls3d) = true by simp [hc3])] at H
          exact Outcome.noConfusion H
        | true =>
          simp only [if_neg (show ¬((!s.controls3d) = true) by simp [hc3])] at H
          injection H with h1 h2
          subst h1
          refine Or.inr ⟨rfl, ?_, ?_, ?_, ?_, ?_, ?_, ?_, ?_, ?_, ?_, ?_, ?_, ?_, ?_⟩ <;>
            simp_all [clockOf]
      | true =>
        simp only [if_pos (show s.xrActive = true from hx)] at H
        cases hc : s.currentSession with
        | none =>
          rw [hc] at H
          simp only [] at H
          exact Outcome.noConfusion H
        | some sess =>
          rw [hc] at H
          simp only [] at H
          simp only [if_neg (show ¬((!s.xrActive) = true) by simp [hx])] at H
          injection H with h1 h2
          subst h1
          refine Or.inr ⟨rfl, ?_, ?_, ?_, ?_, ?_, ?_, ?_, ?_, ?_, ?_, ?_, ?_, ?_, ?_⟩ <;>
            simp_all [clockOf]
    | true =>
      simp only [if_pos (show s.videoReady = true from hv)] at H
      cases hx : s.xrActive with
      | false =>
        simp only [if_neg (show ¬(s.xrActive = true) by simp [hx])] at H
        simp only [if_pos (show (!s.xrActive) = true by simp [hx])] at H
        cases hc3 : s.controls3d with
        | false =>
          simp only [if_pos (show (!s.controls3d) = true by simp [hc3])] at H
          exact Outcome.noConfusion H
        | true =>
          simp only [if_neg (show ¬((!s.controls3d) = true) by simp [hc3])] at H
          injection H with h1 h2
          subst h1
          refine Or.inr ⟨rfl, ?_, ?_, ?_, ?_, ?_, ?_, ?_, ?_, ?_, ?_, ?_, ?_, ?_, ?_⟩ <;>
            simp_all [clockOf]
      | true =>
        simp only [if_pos (show s.xrActive = true from hx)] at H
        cases hc : s.currentSession with
        | none =>
          rw [hc] at H
          simp only [] at H
          exact Outcome.noConfusion H
        | some sess =>
          rw [hc] at H
          simp only [] at H
          simp only [if_neg (show ¬((!s.xrActive) = true) by simp [hx])] at H
          injection H with h1 h2
          subst h1
          refine Or.inr ⟨rfl, ?_, ?_, ?_, ?_, ?_, ?_, ?_, ?_, ?_, ?_, ?_, ?_, ?_, ?_⟩ <;>
            simp_all [clockOf]

theorem probeResolved_ok_spec {b : Bool} {s s2 : XrState} {tr : List Effect}
    (H : Xr.probeResolved b s = Outcome.ok s2 tr) :
    (s.pendingProbe = 0 ∧ s2 = s ∧ tr = []) ∨
    (0 < s.pendingProbe ∧
     s2.initialized_ = s.initialized_ ∧ s2.xrActive = s.xrActive ∧
     s2.currentSession = s.currentSession ∧ s2.controls3d = s.controls3d ∧
     s2.controlsEnabled = s.controlsEnabled ∧
     s2.pending = s.pending ∧ s2.animationFrameId_ = s.animationFrameId_ ∧
     s2.nextHandle = s.nextHandle ∧
     s2.pendingSessionRequests = s.pendingSessionRequests ∧
     s2.pendingRefSpace = s.pendingRefSpace ∧ s2.pendingEnd = s.pendingEnd ∧
     s2.windowListeners = s.windowListeners ∧ s2.playerFsSubs = s.playerFsSubs) := by
  unfold Xr.probeResolved Xr.probeApply at H
  by_cases hp : s.pendingProbe = 0
  · rw [if_pos hp] at H
    injection H with h1 h2
    exact Or.inl ⟨hp, h1.symm, h2.symm⟩
  · rw [if_neg hp] at H
    cases b with
    | false =>
      rw [if_neg (by simp)] at H
      injection H with h1 h2
      subst h1
      refine Or.inr ⟨Nat.pos_of_ne_zero hp, ?_, ?_, ?_, ?_, ?_, ?_, ?_, ?_, ?_,
        ?_, ?_, ?_, ?_⟩ <;> simp
    | true =>
      rw [if_pos rfl] at H
      cases hcb : s.hasCardboardButton with
      | false =>
        rw [if_pos (by simp [hcb])] at H
        injection H with h1 h2
        subst h1
        refine Or.inr ⟨Nat.pos_of_ne_zero hp, ?_, ?_, ?_, ?_, ?_, ?_, ?_, ?_, ?_,
          ?_, ?_, ?_, ?_⟩ <;> simp
      | true =>
        rw [if_neg (by simp [hcb])] at H
        injection H with h1 h2
        subst h1
        refine Or.inr ⟨Nat.pos_of_ne_zero hp, ?_, ?_, ?_, ?_, ?_, ?_, ?_, ?_, ?_,
          ?_, ?_, ?_, ?_⟩ <;> simp

theorem initAlloc_spec (x : XrState) :
    (Xr.initAlloc x).1.initialized_ = x.initialized_ ∧
    (Xr.initAlloc x).1.xrActive = false ∧
    (Xr.initAlloc x).1.controls3d = true ∧
    (Xr.initAlloc x).1.currentSession = x.currentSession ∧
    (Xr.initAlloc x).1.pending = x.pending ∧
    (Xr.initAlloc x).1.animationFrameId_ = x.animationFrameId_ ∧
    (Xr.initAlloc x).1.nextHandle = x.nextHandle ∧
    (Xr.initAlloc x).1.pendingSessionRequests = x.pendingSessionRequests ∧
    (Xr.initAlloc x).1.pendingRefSpace = x.pendingRefSpace ∧
    (Xr.initAlloc x).1.pendingEnd = x.pendingEnd ∧
    (Xr.initAlloc x).1.windowListeners = x.windowListeners ∧
    (Xr.initAlloc x).1.playerFsSubs = x.playerFsSubs ∧
    (Xr.initAlloc x).1.xrAvailable = x.xrAvailable ∧
    (Xr.initAlloc x).2 = [Effect.allocScene, Effect.swapToVrButton,
      Effect.insertCanvas, Effect.hideVideoStyle] := by
  unfold Xr.initAlloc
  split <;> simp_all

theorem initProbe_ok_spec {x x2 : XrState} {tr : List Effect}
    (H : Xr.initProbe x = Outcome.ok x2 tr) :
    x2.initialized_ = x.initialized_ ∧ x2.xrActive = x.xrActive ∧
    x2.controls3d = x.controls3d ∧ x2.currentSession = x.currentSession ∧
    x2.pending = x.pending ∧ x2.animationFrameId_ = x.animationFrameId_ ∧
    x2.nextHandle = x.nextHandle ∧
    x2.pendingSessionRequests = x.pendingSessionRequests ∧
    x2.pendingRefSpace = x.pendingRefSpace ∧ x2.pendingEnd = x.pendingEnd ∧
    x2.windowListeners = x.windowListeners ∧ x2.playerFsSubs = x.playerFsSubs ∧
    tr = [Effect.probeCall] := by
  unfold Xr.initProbe at H
  cases hx : x.xrAvailable with
  | false =>
    rw [if_neg (by simp [hx])] at H
    exact Outcome.noConfusion H
  | true =>
    rw [if_pos hx] at H
    injection H with h1 h2
    subst h1
    refine ⟨?_, ?_, ?_, ?_, ?_, ?_, ?_, ?_, ?_, ?_, ?_, ?_, h2.symm⟩ <;> simp

theorem completeInit_ok_spec {x x2 : XrState} {tr : List Effect}
    (H : Xr.completeInitialization x = Outcome.ok x2 tr) :
    x2.initialized_ = true ∧ x2.xrActive = x.xrActive ∧
    x2.controls3d = x.controls3d ∧ x2.currentSession = x.currentSession ∧
    x2.pending = x.pending ∧ x2.animationFrameId_ = x.animationFrameId_ ∧
    x2.nextHandle = x.nextHandle ∧
    x2.pendingSessionRequests = x.pendingSessionRequests ∧
    x2.pendingRefSpace = x.pendingRefSpace ∧ x2.pendingEnd = x.pendingEnd ∧
    x2.windowListeners = x.windowListeners ∧ x2.playerFsSubs = x.playerFsSubs ∧
    tr = [Effect.setInitializedTrue, Effect.triggerEvt "initialized"] := by
  unfold Xr.completeInitialization at H
  injection H with h1 h2
  subst h1
  refine ⟨?_, ?_, ?_, ?_, ?_, ?_, ?_, ?_, ?_, ?_, ?_, ?_, h2.symm⟩ <;> simp

theorem initSchedule_ok_spec {x x2 : XrState} {tr : List Effect}
    (H : Xr.initScheduleFrame x = Outcome.ok x2 tr) :
    x2.initialized_ = x.initialized_ ∧ x2.xrActive = x.xrActive ∧
    x2.controls3d = x.controls3d ∧ x2.currentSession = x.currentSession ∧
    x2.pending = x.pending ++ [(x.nextHandle, clockOf x)] ∧
    x2.animationFrameId_ = some x.nextHandle ∧ x2.nextHandle = x.nextHandle + 1 ∧
    x2.pendingSessionRequests = x.pendingSessionRequests ∧
    x2.pendingRefSpace = x.pendingRefSpace ∧ x2.pendingEnd = x.pendingEnd ∧
    x2.windowListeners = x.windowListeners ∧ x2.playerFsSubs = x.playerFsSubs ∧
    tr = [Effect.scheduleFrame x.nextHandle (clockOf x)] := by
  unfold Xr.initScheduleFrame Xr.requestAnimationFrame at H
  cases hx : x.xrActive with
  | false =>
    rw [if_neg (by simp [hx])] at H
    simp only [] at H
    injection H with h1 h2
    subst h1
    refine ⟨?_, ?_, ?_, ?_, ?_, ?_, ?_, ?_, ?_, ?_, ?_, ?_, ?_⟩ <;>
      simp_all [clockOf]
  | true =>
    rw [if_pos hx] at H
    cases hc : x.currentSession with
    | none =>
      rw [hc] at H
      simp only [] at H
      exact Outcome.noConfusion H
    | some sess =>
      rw [hc] at H
      simp only [] at H
      injection H with h1 h2
      subst h1
      refine ⟨?_, ?_, ?_, ?_, ?_, ?_, ?_, ?_, ?_, ?_, ?_, ?_, ?_⟩ <;>
        simp_all [clockOf]

theorem initWire_ok_spec {x x2 : XrState} {tr : List Effect}
    (H : Xr.initWire x = Outcome.ok x2 tr) :
    x2.initialized_ = x.initialized_ ∧ x2.xrActive = x.xrActive ∧
    x2.controls3d = x.controls3d ∧ x2.currentSession = x.currentSession ∧
    x2.pending = x.pending ∧ x2.animationFrameId_ = x.animationFrameId_ ∧
    x2.nextHandle = x.nextHandle ∧
    x2.pendingSessionRequests = x.pendingSessionRequests ∧
    x2.pendingRefSpace = x.pendingRefSpace ∧ x2.pendingEnd = x.pendingEnd ∧
    x2.playerFsSubs = x.playerFsSubs + 1 ∧
    tr = [Effect.onPlayerFullscreen, Effect.addListener EvtName.vrdisplaypresentchange,
      Effect.addListener EvtName.winResize, Effect.addListener EvtName.vrdisplayactivate,
      Effect.addListener EvtName.vrdisplaydeactivate] := by
  unfold Xr.initWire at H
  injection H with h1 h2
  subst h1
  refine ⟨?_, ?_, ?_, ?_, ?_, ?_, ?_, ?_, ?_, ?_, ?_, h2.symm⟩ <;> simp

theorem clockOf_eq_player {s : XrState} (h : s.xrActive = false) :
    clockOf s = Clock.player := by
  simp [clockOf, h]

theorem clockOf_eq_session {s : XrState} (h : s.xrActive = true) :
    clockOf s = Clock.session := by
  simp [clockOf, h]

theorem reset_ok_fields {s s2 : XrState} {tr : List Effect}
    (H : Xr.reset s = Outcome.ok s2 tr) :
    s2.currentSession = s.currentSession ∧ s2.xrActive = s.xrActive ∧
    s2.pendingSessionRequests = s.pendingSessionRequests ∧
    s2.pendingRefSpace = s.pendingRefSpace ∧ s2.pendingEnd = s.pendingEnd ∧
    s2.endRequested = s.endRequested ∧ s2.nextHandle = s.nextHandle ∧
    s2.animationFrameId_ = s.animationFrameId_ ∧
    (((s.initialized_ = false ∨ s.animationFrameId_ = none) ∧ s2.pending = s.pending) ∨
     (∃ hid, s.animationFrameId_ = some hid ∧
       s2.pending = s.pending.filter (fun x => !(x = (hid, clockOf s) : Bool)))) ∧
    ((s2.initialized_ = false ∧ s2.controls3d = false) ∨ s2 = s) := by
  rcases reset_ok_spec H with ⟨hI, hEq, hTr⟩ | ⟨hI, s1, tr1, hT, hs2, htr⟩
  · subst hEq
    exact ⟨rfl, rfl, rfl, rfl, rfl, rfl, rfl, rfl, Or.inl ⟨Or.inl hI, rfl⟩, Or.inr rfl⟩
  · obtain ⟨r1, r2, r3, r4, r5, r6, r7, r8, r9, r10, r11, r12, r13, r14, r15⟩ :=
      resetTeardown_ok_spec hT
    subst hs2
    refine ⟨r3, r2, r6, r7, r8, r9, r5, r4, ?_, Or.inl ⟨rfl, r12⟩⟩
    rcases r15 with ⟨hA, hP⟩ | ⟨hid, hA, hP⟩
    · exact Or.inl ⟨Or.inr hA, hP⟩
    · exact Or.inr ⟨hid, hA, hP⟩

theorem init_ok_spec {s s2 : XrState} {tr : List Effect}
    (H : Xr.init s = Outcome.ok s2 tr) :
    s2.initialized_ = true ∧ s2.controls3d = true ∧ s2.xrActive = false ∧
    s2.currentSession = s.currentSession ∧
    s2.pendingSessionRequests = s.pendingSessionRequests ∧
    s2.pendingRefSpace = s.pendingRefSpace ∧ s2.pendingEnd = s.pendingEnd ∧
    ∃ hh p0, s2.animationFrameId_ = some hh ∧ s2.pending = p0 ++ [(hh, Clock.player)] ∧
      (((s.initialized_ = false ∨ s.animationFrameId_ = none) ∧ p0 = s.pending) ∨
       (∃ hid, s.animationFrameId_ = some hid ∧
         p0 = s.pending.filter (fun x => !(x = (hid, clockOf s) : Bool)))) := by
  unfold Xr.init at H
  obtain ⟨sR, trR, trRest, hR, hRest, hTrA⟩ := andThen_ok H
  obtain ⟨sA, trA, trRest2, hAllocEq, hRest2, hTrB⟩ := andThen_ok hRest
  injection hAllocEq with hA1 hA2
  subst hA1
  obtain ⟨sP, trP, trRest3, hProbe, hRest3, hTrC⟩ := andThen_ok hRest2
  obtain ⟨sC, trC, trRest4, hCompl, hRest4, hTrD⟩ := andThen_ok hRest3
  obtain ⟨sS, trS, trW, hSched, hWire, hTrE⟩ := andThen_ok hRest4
  obtain ⟨a1, a2, a3, a4, a5, a6, a7, a8, a9, a10, a11, a12, a13, a14⟩ :=
    initAlloc_spec sR
  obtain ⟨p1, p2, p3, p4, p5, p6, p7, p8, p9, p10, p11, p12, p13⟩ :=
    initProbe_ok_spec hProbe
  obtain ⟨c1, c2, c3, c4, c5, c6, c7, c8, c9, c10, c11, c12, c13⟩ :=
    completeInit_ok_spec hCompl
  obtain ⟨d1, d2, d3, d4, d5, d6, d7, d8, d9, d10, d11, d12, d13⟩ :=
    initSchedule_ok_spec hSched
  obtain ⟨w1, w2, w3, w4, w5, w6, w7, w8, w9, w10, w11, w12⟩ :=
    initWire_ok_spec hWire
  obtain ⟨f1, f2, f3, f4, f5, f6, f7, f8, f9, f10⟩ := reset_ok_fields hR
  have hxC : sC.xrActive = false := by rw [c2, p2, a2]
  refine ⟨?_, ?_, ?_, ?_, ?_, ?_, ?_, sC.nextHandle, sR.pending, ?_, ?_, ?_⟩
  · rw [w1, d1, c1]
  · rw [w3, d3, c3, p3, a3]
  · rw [w2, d2, hxC]
  · rw [w4, d4, c4, p4, a4, f1]
  · rw [w8, d8, c8, p8, a8, f3]
  · rw [w9, d9, c9, p9, a9, f4]
  · rw [w10, d10, c10, p10, a10, f5]
  · rw [w6, d6]
  · rw [w5, d5, clockOf_eq_player hxC, c5, p5, a5]
  · exact f9

theorem InvHandles_transport {a b : XrState}
    (hP : b.pending = a.pending) (hI : b.initialized_ = a.initialized_)
    (hC : b.controls3d = a.controls3d) (hX : b.xrActive = a.xrActive)
    (hA : b.animationFrameId_ = a.animationFrameId_)
    (h1 : b.pendingSessionRequests = a.pendingSessionRequests)
    (h2 : b.pendingRefSpace = a.pendingRefSpace) (h3 : b.pendingEnd = a.pendingEnd)
    (H : InvHandles a) : InvHandles b := by
  obtain ⟨P1, P2, P3, c1, c2, c3⟩ := H
  refine ⟨?_, ?_, ?_, ?_, ?_, ?_⟩
  · rcases P1 with hE | ⟨h0, hp, hi⟩
    · exact Or.inl (hP.trans hE)
    · refine Or.inr ⟨h0, ?_, ?_⟩
      · rw [hP, hp]
        simp [clockOf, hX]
      · rw [hA, hi]
  · intro hb
    rw [hP]
    exact P2 (by rw [← hI, hb])
  · intro hb
    rw [hI]
    exact P3 (by rw [← hC, hb])
  · rw [h1, c1]
  · rw [h2, c2]
  · rw [h3, c3]

theorem InvC3_transport {a b : XrState}
    (hS : b.currentSession = a.currentSession) (hX : b.xrActive = a.xrActive)
    (h1 : b.pendingSessionRequests = a.pendingSessionRequests)
    (h2 : b.pendingRefSpace = a.pendingRefSpace) (h3 : b.pendingEnd = a.pendingEnd)
    (H : InvC3 a) : InvC3 b := by
  obtain ⟨P1, c1, c2, c3⟩ := H
  exact ⟨by rw [hS, hX, P1], by rw [h1, c1], by rw [h2, c2], by rw [h3, c3]⟩

/-- C4 (amended): after an activation attempt (capability flag set, desktop
controls present, and the stored-handle cancellation well-formed) whose
session request rejects, the machine does remain Inactive — `xrActive` and
`currentSession` are unchanged, no retry is issued, no synchronous exception
escapes — but the desktop controls, disabled before the request, are left
disabled, and nothing is logged: the rejected promise chain has no handler,
so no plugin code runs at all on rejection. -/
theorem C4_amended (s : XrState) (h1 : s.xrSupported = true) (h2 : s.controls3d = true)
    (h3 : s.xrActive = true → s.currentSession.isSome = true) :
    (Xr.handleVrDisplayActivate_ s).isOk = true ∧
    (Xr.handleVrDisplayActivate_ s).st.controlsEnabled = false ∧
    (Xr.handleVrDisplayActivate_ s).st.xrActive = s.xrActive ∧
    (Xr.handleVrDisplayActivate_ s).st.currentSession = s.currentSession ∧
    ((Xr.handleVrDisplayActivate_ s).tr.all (fun e => !isLog e)) = true ∧
    Xr.activateSessionRejected (Xr.handleVrDisplayActivate_ s).st =
      Outcome.ok { (Xr.handleVrDisplayActivate_ s).st with
        pendingSessionRequests :=
          (Xr.handleVrDisplayActivate_ s).st.pendingSessionRequests - 1 } [] := by
  unfold Xr.handleVrDisplayActivate_ Xr.tryCancelStored Xr.cancelAnimationFrame
  rw [if_neg (by simp [h1])]
  cases hA : s.animationFrameId_ with
  | none =>
    simp only []
    rw [if_neg (by simp [h2])]
    refine ⟨rfl, ?_, ?_, ?_, ?_, ?_⟩ <;>
      simp [Outcome.st, Outcome.tr, Xr.activateSessionRejected, isLog]
  | some hid =>
    try simp only []
    cases hx : s.xrActive with
    | false =>
      rw [if_neg (show ¬(false = true) by simp)]
      try simp only []
      rw [if_neg (by simp [h2])]
      refine ⟨rfl, ?_, ?_, ?_, ?_, ?_⟩ <;>
        simp [Outcome.st, Outcome.tr, Xr.activateSessionRejected, isLog, hx]
    | true =>
      obtain ⟨sess, hc⟩ := Option.isSome_iff_exists.mp (h3 hx)
      rw [if_pos (show (true : Bool) = true from rfl)]
      rw [hc]
      try simp only []
      rw [if_neg (by simp [h2])]
      refine ⟨rfl, ?_, ?_, ?_, ?_, ?_⟩ <;>
        simp [Outcome.st, Outcome.tr, Xr.activateSessionRejected, isLog, hx, hc]

theorem C4_witness :
    cProbe.xrSupported = true ∧ cProbe.controls3d = true ∧
    (Xr.handleVrDisplayActivate_ cProbe).isOk = true ∧
    (Xr.handleVrDisplayActivate_ cProbe).st.controlsEnabled = false ∧
    (Xr.handleVrDisplayActivate_ cProbe).st.xrActive = cProbe.xrActive ∧
    (Xr.handleVrDisplayActivate_ cProbe).st.currentSession = cProbe.currentSession ∧
    ((Xr.handleVrDisplayActivate_ cProbe).tr.all (fun e => !isLog e)) = true ∧
    Xr.activateSessionRejected (Xr.handleVrDisplayActivate_ cProbe).st =
      Outcome.ok { (Xr.handleVrDisplayActivate_ cProbe).st with
        pendingSessionRequests :=
          (Xr.handleVrDisplayActivate_ cProbe).st.pendingSessionRequests - 1 } [] := by
  refine ⟨by decide, by decide, ?_⟩
  have h := C4_amended cProbe (by decide) (by decide) (by decide)
  exact ⟨h.1, h.2.1, h.2.2.1, h.2.2.2.1, h.2.2.2.2.1, h.2.2.2.2.2⟩

theorem erase4_not_mem {l : List EvtName} (h : l.Nodup) :
    EvtName.winResize ∉ (((l.erase EvtName.winResize).erase
      EvtName.vrdisplaypresentchange).erase EvtName.vrdisplayactivate).erase
      EvtName.vrdisplaydeactivate ∧
    EvtName.vrdisplaypresentchange ∉ (((l.erase EvtName.winResize).erase
      EvtName.vrdisplaypresentchange).erase EvtName.vrdisplayactivate).erase
      EvtName.vrdisplaydeactivate ∧
    EvtName.vrdisplayactivate ∉ (((l.erase EvtName.winResize).erase
      EvtName.vrdisplaypresentchange).erase EvtName.vrdisplayactivate).erase
      EvtName.vrdisplaydeactivate ∧
    EvtName.vrdisplaydeactivate ∉ (((l.erase EvtName.winResize).erase
      EvtName.vrdisplaypresentchange).erase EvtName.vrdisplayactivate).erase
      EvtName.vrdisplaydeactivate := by
  have h1 : (l.erase EvtName.winResize).Nodup := h.erase _
  have h2 : ((l.erase EvtName.winResize).erase EvtName.vrdisplaypresentchange).Nodup :=
    h1.erase _
  have h3 : (((l.erase EvtName.winResize).erase
      EvtName.vrdisplaypresentchange).erase EvtName.vrdisplayactivate).Nodup :=
    h2.erase _
  refine ⟨fun hm => ?_, fun hm => ?_, fun hm => ?_, fun hm => ?_⟩
  · have hmem := List.mem_of_mem_erase (List.mem_of_mem_erase (List.mem_of_mem_erase hm))
    exact absurd rfl ((h.mem_erase_iff.mp hmem).1)
  · have hmem := List.mem_of_mem_erase (List.mem_of_mem_erase hm)
    exact absurd rfl ((h1.mem_erase_iff.mp hmem).1)
  · have hmem := List.mem_of_mem_erase hm
    exact absurd rfl ((h2.mem_erase_iff.mp hmem).1)
  · exact absurd rfl ((h3.mem_erase_iff.mp hm).1)

/-- C6 (amended): a `reset()` from the Active state (initialized, session
present, one session-clock frame outstanding) cancels the outstanding frame
handle, removes the four window subscriptions registered by init, and clears
the initialization flag — but it does not end the session: `end()` is never
called, `currentSession` and `xrActive` keep their active values, and the
player `fullscreenchange` subscription registered by init survives. -/
theorem C6_amended (s s2 : XrState) (tr : List Effect) (sess fid : Nat)
    (hInit : s.initialized_ = true) (hAct : s.xrActive = true)
    (hSess : s.currentSession = some sess) (hFid : s.animationFrameId_ = some fid)
    (hPend : s.pending = [(fid, Clock.session)]) (hND : s.windowListeners.Nodup)
    (hOk : Xr.reset s = Outcome.ok s2 tr) :
    s2.initialized_ = false ∧ s2.pending = [] ∧
    EvtName.winResize ∉ s2.windowListeners ∧
    EvtName.vrdisplaypresentchange ∉ s2.windowListeners ∧
    EvtName.vrdisplayactivate ∉ s2.windowListeners ∧
    EvtName.vrdisplaydeactivate ∉ s2.windowListeners ∧
    s2.currentSession = some sess ∧ s2.xrActive = true ∧
    s2.endRequested = s.endRequested ∧ s2.playerFsSubs = s.playerFsSubs ∧
    tr.all (fun e => !isSessionEndCall e) = true := by
  rcases reset_ok_spec hOk with ⟨hI0, _, _⟩ | ⟨_, s1, tr1, hT, hs2, htr⟩
  · rw [hInit] at hI0
    cases hI0
  · obtain ⟨r1, r2, r3, r4, r5, r6, r7, r8, r9, r10, r11, r12, r13, r14, r15⟩ :=
      resetTeardown_ok_spec hT
    subst hs2
    subst htr
    obtain ⟨e1, e2, e3, e4⟩ := erase4_not_mem hND
    refine ⟨rfl, ?_, ?_, ?_, ?_, ?_, ?_, ?_, ?_, ?_, ?_⟩
    · show s1.pending = []
      rcases r15 with ⟨hA, _⟩ | ⟨hid, hA, hP⟩
      · rw [hFid] at hA
        cases hA
      · rw [hFid] at hA
        injection hA with hA2
        subst hA2
        rw [hP, hPend, clockOf_eq_session hAct]
        simp
    · show EvtName.winResize ∉ s1.windowListeners
      rw [r13]
      exact e1
    · show EvtName.vrdisplaypresentchange ∉ s1.windowListeners
      rw [r13]
      exact e2
    · show EvtName.vrdisplayactivate ∉ s1.windowListeners
      rw [r13]
      exact e3
    · show EvtName.vrdisplaydeactivate ∉ s1.windowListeners
      rw [r13]
      exact e4
    · show s1.currentSession = some sess
      rw [r3, hSess]
    · show s1.xrActive = true
      rw [r2, hAct]
    · exact r9
    · exact r10
    · have hq : tr1.all (fun e => !isSessionEndCall e) = true :=
        all_mono (fun e he => by
          cases e <;> simp_all [teardownEffectOk, isSessionEndCall]) r14
      show (tr1 ++ [Effect.setInitializedFalse]).all (fun e => !isSessionEndCall e) = true
      rw [List.all_append, hq]
      rfl

set_option maxHeartbeats 4000000 in
theorem C6_witness :
    cActive.initialized_ = true ∧ cActive.xrActive = true ∧
    cActive.currentSession = some 5 ∧ cActive.animationFrameId_ = some 2 ∧
    cActive.pending = [(2, Clock.session)] ∧ cActive.windowListeners.Nodup ∧
    ((Xr.reset cActive).st.initialized_ = false ∧ (Xr.reset cActive).st.pending = [] ∧
     EvtName.winResize ∉ (Xr.reset cActive).st.windowListeners ∧
     EvtName.vrdisplaypresentchange ∉ (Xr.reset cActive).st.windowListeners ∧
     EvtName.vrdisplayactivate ∉ (Xr.reset cActive).st.windowListeners ∧
     EvtName.vrdisplaydeactivate ∉ (Xr.reset cActive).st.windowListeners ∧
     (Xr.reset cActive).st.currentSession = some 5 ∧
     (Xr.reset cActive).st.xrActive = true ∧
     (Xr.reset cActive).st.endRequested = cActive.endRequested ∧
     (Xr.reset cActive).st.playerFsSubs = cActive.playerFsSubs ∧
     (Xr.reset cActive).tr.all (fun e => !isSessionEndCall e) = true) := by
  have h := C6_amended cActive (Xr.reset cActive).st (Xr.reset cActive).tr 5 2
    (by decide) (by decide) (by decide) (by decide) (by decide) (by decide)
    (ok_of_isOk _ (by decide))
  exact ⟨by decide, by decide, by decide, by decide, by decide, by decide, h⟩

/-- C9 (amended): inside `init`, the initialization flag is set after the
resource-allocation phase but strictly before the first frame scheduling and
before the event wiring — every effect preceding the flag-set is neither a
scheduling nor a wiring effect, and the flag-set does occur; and `reset`
clears the flag as its very last action, after all teardown. -/
theorem C9_amended (s s2 t t2 : XrState) (tr tr2 : List Effect)
    (hInit : Xr.init s = Outcome.ok s2 tr)
    (hT : t.initialized_ = true) (hReset : Xr.reset t = Outcome.ok t2 tr2) :
    ((tr.takeWhile (fun e => !isSetInitTrue e)).all
      (fun e => !isScheduleFrame e && !isWireEffect e)) = true ∧
    Effect.setInitializedTrue ∈ tr ∧
    tr2.getLast? = some Effect.setInitializedFalse := by
  unfold Xr.init at hInit
  obtain ⟨sR, trR, trRest, hR, hRest, hTrA⟩ := andThen_ok hInit
  obtain ⟨sA, trA, trRest2, hAllocEq, hRest2, hTrB⟩ := andThen_ok hRest
  injection hAllocEq with hA1 hA2
  subst hA1
  obtain ⟨sP, trP, trRest3, hProbe, hRest3, hTrC⟩ := andThen_ok hRest2
  obtain ⟨sC, trC, trRest4, hCompl, hRest4, hTrD⟩ := andThen_ok hRest3
  have hTrAll : (Xr.initAlloc sR).2 = [Effect.allocScene, Effect.swapToVrButton,
      Effect.insertCanvas, Effect.hideVideoStyle] := (initAlloc_spec sR).2.2.2.2.2.2.2.2.2.2.2.2.2
  have hTrPr : trP = [Effect.probeCall] := (initProbe_ok_spec hProbe).2.2.2.2.2.2.2.2.2.2.2.2
  have hTrCo : trC = [Effect.setInitializedTrue, Effect.triggerEvt "initialized"] :=
    (completeInit_ok_spec hCompl).2.2.2.2.2.2.2.2.2.2.2.2
  have hRall : trR.all preInitEffect = true := by
    rcases reset_ok_spec hR with ⟨_, _, hEmp⟩ | ⟨_, s1, tr1, hTd, _, htr1⟩
    · rw [hEmp]
      rfl
    · have h14 := (resetTeardown_ok_spec hTd).2.2.2.2.2.2.2.2.2.2.2.2.2.1
      have hq : tr1.all preInitEffect = true :=
        all_mono (fun e he => by
          cases e <;> simp_all [teardownEffectOk, preInitEffect, isSetInitTrue,
            isScheduleFrame, isWireEffect]) h14
      rw [htr1, List.all_append, hq]
      rfl
  have hp1 : trR.all (fun e => !isSetInitTrue e) = true :=
    all_mono (fun e he => by
      cases e <;> simp_all [preInitEffect, isSetInitTrue]) hRall
  subst hTrA
  subst hTrB
  subst hTrC
  subst hTrD
  subst hA2
  rw [hTrAll, hTrPr, hTrCo]
  refine ⟨?_, ?_, ?_⟩
  · rw [takeWhile_append_all hp1]
    rw [takeWhile_append_all (by rfl)]
    rw [takeWhile_append_all (by rfl)]
    simp only [List.cons_append, List.nil_append]
    rw [show ((Effect.setInitializedTrue :: Effect.triggerEvt "initialized" ::
      trRest4).takeWhile (fun e => !isSetInitTrue e)) = [] from rfl]
    have hq : trR.all (fun e => !isScheduleFrame e && !isWireEffect e) = true :=
      all_mono (fun e he => by
        cases e <;> simp [preInitEffect, isSetInitTrue, isScheduleFrame,
          isWireEffect] at he ⊢) hRall
    rw [List.all_append, hq]
    rfl
  · exact List.mem_append_right _ (List.mem_append_right _ (List.mem_append_right _
      (List.mem_append_left _ (List.mem_cons_self _ _))))
  · rcases reset_ok_spec hReset with ⟨hI0, _, _⟩ | ⟨_, s1, tr1, _, _, htr⟩
    · rw [hT] at hI0
      cases hI0
    · rw [htr]
      simp

theorem C9_witness :
    (((Xr.init initialState).tr.takeWhile (fun e => !isSetInitTrue e)).all
      (fun e => !isScheduleFrame e && !isWireEffect e)) = true ∧
    Effect.setInitializedTrue ∈ (Xr.init initialState).tr ∧
    (Xr.reset cInit).tr.getLast? = some Effect.setInitializedFalse ∧
    cInit.initialized_ = true := by
  have h := C9_amended initialState (Xr.init initialState).st cInit
    (Xr.reset cInit).st (Xr.init initialState).tr (Xr.reset cInit).tr
    (ok_of_isOk _ (by decide)) (by decide) (ok_of_isOk _ (by decide))
  exact ⟨h.1, h.2.1, h.2.2, by decide⟩

theorem InvC3_of_reach {s : XrState} (h : ReachAtC3 s) : InvC3 s := by
  induction h with
  | start => exact ⟨rfl, rfl, rfl, rfl⟩
  | step hr hst ih =>
    obtain ⟨P1, c1, c2, c3⟩ := ih
    cases hst with
    | initEv hNone hOk =>
      obtain ⟨i1, i2, i3, i4, i5, i6, i7, _⟩ := init_ok_spec hOk
      exact ⟨by simp [i4, hNone, i3], by rw [i5, c1], by rw [i6, c2], by rw [i7, c3]⟩
    | probeEv b hOk =>
      rcases probeResolved_ok_spec hOk with ⟨_, hEq, _⟩ | ⟨_, q1, q2, q3, q4, q5,
        q6, q7, q8, q9, q10, q11, q12, q13⟩
      · subst hEq
        exact ⟨P1, c1, c2, c3⟩
      · exact InvC3_transport q3 q2 q9 q10 q11 ⟨P1, c1, c2, c3⟩
    | activateOk sess hOk =>
      unfold activateSuccess at hOk
      obtain ⟨m1, t1, rest1, hAct, hRest, _⟩ := andThen_ok hOk
      obtain ⟨m2, t2, t3, hSess2, hRef, _⟩ := andThen_ok hRest
      rcases handleActivate_ok_spec hAct with ⟨hsup, hEq1, _⟩ | ⟨hsup, hc3, b1, b2,
        b3, b4, b5, b6, b7, b8, b9, b10, b11, b12, b13, b14, b15, b16, b17⟩
      · subst hEq1
        rcases sessionResolved_ok_spec hSess2 with ⟨hz, hEq2, _⟩ | ⟨hpos, _, _⟩
        · subst hEq2
          rcases refSpaceResolved_ok_spec hRef with ⟨hz2, hEq3, _⟩ | ⟨hpos2, _, _⟩
          · subst hEq3
            exact ⟨P1, c1, c2, c3⟩
          · rw [c2] at hpos2
            exact absurd hpos2 (lt_irrefl 0)
        · rw [c1] at hpos
          exact absurd hpos (lt_irrefl 0)
      · rcases sessionResolved_ok_spec hSess2 with ⟨hz, _, _⟩ | ⟨hpos, hEq2, _⟩
        · rw [b8] at hz
          cases hz
        · subst hEq2
          rcases refSpaceResolved_ok_spec hRef with ⟨hz2, _, _⟩ | ⟨hpos2, hsome, hEq3, _⟩
          · simp at hz2
          · subst hEq3
            refine ⟨rfl, ?_, ?_, ?_⟩
            · simp [b8, c1]
            · simp [b9, c2]
            · simp [b10, c3]
    | activateRej hOk =>
      unfold activateRejectFull Xr.activateSessionRejected at hOk
      obtain ⟨m1, t1, t2, hAct, hRej, _⟩ := andThen_ok hOk
      injection hRej with hEq hTr
      rcases handleActivate_ok_spec hAct with ⟨hsup, hEq1, _⟩ | ⟨hsup, hc3, b1, b2,
        b3, b4, b5, b6, b7, b8, b9, b10, b11, b12, b13, b14, b15, b16, b17⟩
      · subst hEq1
        subst hEq
        exact ⟨by simp [P1], by simp [c1], by simp [c2], by simp [c3]⟩
      · subst hEq
        refine ⟨?_, ?_, ?_, ?_⟩
        · show m1.currentSession.isSome = m1.xrActive
          rw [b3, b2, P1]
        · show m1.pendingSessionRequests - 1 = 0
          rw [b8, c1]
        · show m1.pendingRefSpace = 0
          rw [b9, c2]
        · show m1.pendingEnd = 0
          rw [b10, c3]
    | deactivateOk k hOk =>
      unfold deactivateFull at hOk
      obtain ⟨m1, t1, t2, hDeact, hEnd, _⟩ := andThen_ok hOk
      rcases handleDeactivate_ok_spec hDeact with ⟨hsup, hEq1, _⟩ | ⟨hsup, hsess,
        d1, d2, d3, d4, d5, d6, d7, d8, d9, d10, d11, d12, d13, dPend⟩
      · subst hEq1
        rcases endSettled_ok_spec hEnd with ⟨hz, hEq2, _⟩ | ⟨hpos, _, _⟩
        · subst hEq2
          exact ⟨P1, c1, c2, c3⟩
        · rw [c3] at hpos
          exact absurd hpos (lt_irrefl 0)
      · rcases endSettled_ok_spec hEnd with ⟨hz, _, _⟩ | ⟨hpos, hctr, hEq2, _⟩
        · rw [d10, c3] at hz
          cases hz
        · subst hEq2
          refine ⟨rfl, ?_, ?_, ?_⟩
          · simp [d8, c1]
          · simp [d9, c2]
          · simp [d10, c3]
    | frameEv hfr cl hMem hOk =>
      unfold Xr.deliverFrame at hOk
      rcases animate_ok_spec hOk with ⟨_, hEq, _⟩ | ⟨_, a1, a2, a3, a4, a5, a6, a7,
        a8, a9, a10, a11, a12, a13, a14⟩
      · subst hEq
        exact InvC3_transport rfl rfl rfl rfl rfl ⟨P1, c1, c2, c3⟩
      · exact InvC3_transport a3 a2 a9 a10 a11 ⟨P1, c1, c2, c3⟩
    | resizeEv w ht hOk =>
      unfold Xr.handleResize_ at hOk
      injection hOk with hEq _
      subst hEq
      exact InvC3_transport rfl rfl rfl rfl rfl ⟨P1, c1, c2, c3⟩
    | resetEv hOk =>
      obtain ⟨f1, f2, f3, f4, f5, _⟩ := reset_ok_fields hOk
      exact InvC3_transport f1 f2 f3 f4 f5 ⟨P1, c1, c2, c3⟩
    | disposeEv hOk =>
      unfold Xr.dispose at hOk
      obtain ⟨m1, t1, t2, hR, hFin, _⟩ := andThen_ok hOk
      injection hFin with hEq _
      obtain ⟨f1, f2, f3, f4, f5, _⟩ := reset_ok_fields hR
      subst hEq
      exact InvC3_transport f1 f2 f3 f4 f5 ⟨P1, c1, c2, c3⟩

/-- C3 (amended): in every state reachable by atomically completed
transitions in which `init` is only invoked while no session handle is held,
the session handle `currentSession` is non-null exactly when `xrActive` is
true. (The unrestricted claim fails: re-running init during an active session
clears `xrActive` but not `currentSession`, see the counterexample.) -/
theorem C3_amended (s : XrState) (h : ReachAtC3 s) :
    s.currentSession.isSome = s.xrActive :=
  (InvC3_of_reach h).1

theorem C3_amended_witness : initialState.currentSession.isSome = initialState.xrActive :=
  C3_amended initialState ReachAtC3.start

theorem cancelled_pending_nil {s : XrState} {p0 : List (Nat × Clock)}
    (P1 : s.pending = [] ∨ ∃ h0, s.pending = [(h0, clockOf s)] ∧
      s.animationFrameId_ = some h0)
    (hd : (s.animationFrameId_ = none ∧ p0 = s.pending) ∨
      (∃ hid, s.animationFrameId_ = some hid ∧
        p0 = s.pending.filter (fun x => !(x = (hid, clockOf s) : Bool)))) :
    p0 = [] := by
  rcases P1 with hE | ⟨h0, hPp, hI⟩
  · rcases hd with ⟨_, hp⟩ | ⟨hid, _, hp⟩
    · rw [hp, hE]
    · rw [hp, hE]
      rfl
  · rcases hd with ⟨hN, hp⟩ | ⟨hid, hA, hp⟩
    · rw [hN] at hI
      cases hI
    · have hh0 : hid = h0 := by
        have hx := hA.symm.trans hI
        injection hx
      subst hh0
      rw [hp, hPp]
      simp

theorem InvHandles_of_reach {s : XrState} (h : ReachAtomic s) : InvHandles s := by
  induction h with
  | start => exact ⟨Or.inl rfl, fun _ => rfl, fun hc => Bool.noConfusion hc, rfl, rfl, rfl⟩
  | step hr hst ih =>
    obtain ⟨I1, I2, I3, Iz1, Iz2, Iz3⟩ := ih
    cases hst with
    | initEv hOk =>
      obtain ⟨i1, i2, i3, i4, i5, i6, i7, hh, p0, iA, iP, iDisj⟩ := init_ok_spec hOk
      have hp0 : p0 = [] := by
        rcases iDisj with ⟨hcase, hp⟩ | ⟨hid, hA, hp⟩
        · rcases hcase with hU | hN
          · rw [hp]
            exact I2 hU
          · exact cancelled_pending_nil I1 (Or.inl ⟨hN, hp⟩)
        · exact cancelled_pending_nil I1 (Or.inr ⟨hid, hA, hp⟩)
      refine ⟨Or.inr ⟨hh, ?_, iA⟩, ?_, fun _ => i1, ?_, ?_, ?_⟩
      · rw [iP, hp0]
        simp [clockOf_eq_player i3]
      · intro hfalse
        rw [i1] at hfalse
        cases hfalse
      · rw [i5, Iz1]
      · rw [i6, Iz2]
      · rw [i7, Iz3]
    | probeEv b hOk =>
      rcases probeResolved_ok_spec hOk with ⟨_, hEq, _⟩ | ⟨_, q1, q2, q3, q4, q5,
        q6, q7, q8, q9, q10, q11, q12, q13⟩
      · subst hEq
        exact ⟨I1, I2, I3, Iz1, Iz2, Iz3⟩
      · exact InvHandles_transport q6 q1 q4 q2 q7 q9 q10 q11 ⟨I1, I2, I3, Iz1, Iz2, Iz3⟩
    | activateOk sess hOk =>
      unfold activateSuccess at hOk
      obtain ⟨m1, t1, rest1, hAct, hRest, _⟩ := andThen_ok hOk
      obtain ⟨m2, t2, t3, hSess2, hRef, _⟩ := andThen_ok hRest
      rcases handleActivate_ok_spec hAct with ⟨hsup, hEq1, _⟩ | ⟨hsup, hc3, b1, b2,
        b3, b4, b5, b6, b7, b8, b9, b10, b11, b12, b13, b14, b15, b16, b17⟩
      · subst hEq1
        rcases sessionResolved_ok_spec hSess2 with ⟨hz, hEq2, _⟩ | ⟨hpos, _, _⟩
        · subst hEq2
          rcases refSpaceResolved_ok_spec hRef with ⟨hz2, hEq3, _⟩ | ⟨hpos2, _, _⟩
          · subst hEq3
            exact ⟨I1, I2, I3, Iz1, Iz2, Iz3⟩
          · rw [Iz2] at hpos2
            exact absurd hpos2 (lt_irrefl 0)
        · rw [Iz1] at hpos
          exact absurd hpos (lt_irrefl 0)
      · have hNil : m1.pending = [] := cancelled_pending_nil I1 b17
        have hIt : m1.initialized_ = true := by
          rw [b1]
          exact I3 hc3
        rcases sessionResolved_ok_spec hSess2 with ⟨hz, _, _⟩ | ⟨hpos, hEq2, _⟩
        · rw [b8] at hz
          cases hz
        · subst hEq2
          rcases refSpaceResolved_ok_spec hRef with ⟨hz2, _, _⟩ | ⟨hpos2, hsome, hEq3, _⟩
          · simp at hz2
          · subst hEq3
            refine ⟨Or.inr ⟨m1.nextHandle, ?_, rfl⟩, ?_, fun _ => hIt, ?_, ?_, ?_⟩
            · show m1.pending ++ [(m1.nextHandle, Clock.session)] = _
              rw [hNil]
              simp [clockOf]
            · intro hfalse
              exact Bool.noConfusion (hIt.symm.trans hfalse)
            · simp [b8, Iz1]
            · simp [b9, Iz2]
            · simp [b10, Iz3]
    | activateRej hOk =>
      unfold activateRejectFull Xr.activateSessionRejected at hOk
      obtain ⟨m1, t1, t2, hAct, hRej, _⟩ := andThen_ok hOk
      injection hRej with hEq hTr
      rcases handleActivate_ok_spec hAct with ⟨hsup, hEq1, _⟩ | ⟨hsup, hc3, b1, b2,
        b3, b4, b5, b6, b7, b8, b9, b10, b11, b12, b13, b14, b15, b16, b17⟩
      · subst hEq1
        subst hEq
        refine ⟨I1, I2, I3, ?_, Iz2, Iz3⟩
        simp [Iz1]
      · subst hEq
        have hNil : m1.pending = [] := cancelled_pending_nil I1 b17
        have hIt : m1.initialized_ = true := by
          rw [b1]
          exact I3 hc3
        refine ⟨Or.inl hNil, fun _ => hNil, fun _ => hIt, ?_, ?_, ?_⟩
        · show m1.pendingSessionRequests - 1 = 0
          rw [b8, Iz1]
        · show m1.pendingRefSpace = 0
          rw [b9, Iz2]
        · show m1.pendingEnd = 0
          rw [b10, Iz3]
    | deactivateOk k hOk =>
      unfold deactivateFull at hOk
      obtain ⟨m1, t1, t2, hDeact, hEnd, _⟩ := andThen_ok hOk
      rcases handleDeactivate_ok_spec hDeact with ⟨hsup, hEq1, _⟩ | ⟨hsup, hsess,
        d1, d2, d3, d4, d5, d6, d7, d8, d9, d10, d11, d12, d13, dPend⟩
      · subst hEq1
        rcases endSettled_ok_spec hEnd with ⟨hz, hEq2, _⟩ | ⟨hpos, _, _⟩
        · subst hEq2
          exact ⟨I1, I2, I3, Iz1, Iz2, Iz3⟩
        · rw [Iz3] at hpos
          exact absurd hpos (lt_irrefl 0)
      · have hNil : m1.pending = [] := cancelled_pending_nil I1 dPend
        rcases endSettled_ok_spec hEnd with ⟨hz, _, _⟩ | ⟨hpos, hctr, hEq2, _⟩
        · rw [d10, Iz3] at hz
          cases hz
        · have hIt : m1.initialized_ = true := by
            rw [d1]
            refine I3 ?_
            rw [← d4]
            exact hctr
          subst hEq2
          refine ⟨Or.inr ⟨m1.nextHandle, ?_, rfl⟩, ?_, fun _ => hIt, ?_, ?_, ?_⟩
          · show m1.pending ++ [(m1.nextHandle, Clock.player)] = _
            rw [hNil]
            simp [clockOf]
          · intro hfalse
            exact Bool.noConfusion (hIt.symm.trans hfalse)
          · simp [d8, Iz1]
          · simp [d9, Iz2]
          · simp [d10, Iz3]
    | frameEv hfr cl hMem hOk =>
      rcases I1 with hE | ⟨h0, hp, hI⟩
      · rw [hE] at hMem
        cases hMem
      · rw [hp] at hMem
        have hMem2 := List.mem_singleton.mp hMem
        injection hMem2 with hfh hfcl
        subst hfh
        subst hfcl
        have hNilGen : ∀ t : XrState, t.pending = [(hfr, clockOf t)] →
            t.pending.filter (fun x => !(x = (hfr, clockOf t) : Bool)) = [] := by
          intro t ht
          rw [ht]
          simp
        have hNil2 := hNilGen _ hp
        unfold Xr.deliverFrame at hOk
        rcases animate_ok_spec hOk with ⟨hU, hEq, _⟩ | ⟨hIn, a1, a2, a3, a4, a5,
          a6, a7, a8, a9, a10, a11, a12, a13, a14⟩
        · subst hEq
          exact ⟨Or.inl hNil2, fun _ => hNil2, fun hc => I3 hc, Iz1, Iz2, Iz3⟩
        · refine ⟨Or.inr ⟨_, ?_, a13⟩, ?_, ?_, ?_, ?_, ?_⟩
          · rw [a12]
            simp only []
            rw [hNil2]
            simp [clockOf, a2]
          · intro hfalse
            rw [a1] at hfalse
            exact Bool.noConfusion (hIn.symm.trans hfalse)
          · intro hc
            rw [a1]
            exact hIn
          · rw [a9]
            exact Iz1
          · rw [a10]
            exact Iz2
          · rw [a11]
            exact Iz3
    | resizeEv w ht hOk =>
      unfold Xr.handleResize_ at hOk
      injection hOk with hEq _
      subst hEq
      exact InvHandles_transport rfl rfl rfl rfl rfl rfl rfl rfl ⟨I1, I2, I3, Iz1, Iz2, Iz3⟩
    | resetEv hOk =>
      rcases reset_ok_spec hOk with ⟨hI0, hEq, _⟩ | ⟨hI0, s1, tr1, hT, hs2, htr⟩
      · subst hEq
        exact ⟨I1, I2, I3, Iz1, Iz2, Iz3⟩
      · obtain ⟨r1, r2, r3, r4, r5, r6, r7, r8, r9, r10, r11, r12, r13, r14, r15⟩ :=
          resetTeardown_ok_spec hT
        subst hs2
        have hNil : s1.pending = [] := cancelled_pending_nil I1 r15
        refine ⟨Or.inl hNil, fun _ => hNil, fun hc => ?_, ?_, ?_, ?_⟩
        · exact Bool.noConfusion (r12.symm.trans hc)
        · show s1.pendingSessionRequests = 0
          rw [r6, Iz1]
        · show s1.pendingRefSpace = 0
          rw [r7, Iz2]
        · show s1.pendingEnd = 0
          rw [r8, Iz3]
    | disposeEv hOk =>
      unfold Xr.dispose at hOk
      obtain ⟨m1, t1, t2, hR, hFin, _⟩ := andThen_ok hOk
      injection hFin with hEq _
      subst hEq
      rcases reset_ok_spec hR with ⟨hI0, hEq1, _⟩ | ⟨hI0, s1, tr1, hT, hs2, htr⟩
      · subst hEq1
        exact InvHandles_transport rfl rfl rfl rfl rfl rfl rfl rfl ⟨I1, I2, I3, Iz1, Iz2, Iz3⟩
      · obtain ⟨r1, r2, r3, r4, r5, r6, r7, r8, r9, r10, r11, r12, r13, r14, r15⟩ :=
          resetTeardown_ok_spec hT
        subst hs2
        have hNil : s1.pending = [] := cancelled_pending_nil I1 r15
        refine ⟨Or.inl hNil, fun _ => hNil, fun hc => ?_, ?_, ?_, ?_⟩
        · exact Bool.noConfusion (r12.symm.trans hc)
        · show s1.pendingSessionRequests = 0
          rw [r6, Iz1]
        · show s1.pendingRefSpace = 0
          rw [r7, Iz2]
        · show s1.pendingEnd = 0
          rw [r8, Iz3]

/-- C7 (amended): under non-overlapping transitions — each activation,
rejection, deactivation and frame delivery runs to completion before the next
event — at most one frame handle is outstanding in every reachable state:
each transition cancels the stored handle on the current clock before a new
frame is requested. (With overlapping activations the code violates the
invariant, see the counterexample: the second activation only cancels the
stale stored handle, and both resolution chains schedule a frame.) -/
theorem C7_amended (s : XrState) (h : ReachAtomic s) : s.pending.length ≤ 1 := by
  rcases (InvHandles_of_reach h).1 with hE | ⟨h0, hp, _⟩
  · rw [hE]
    exact Nat.zero_le 1
  · rw [hp]
    exact le_refl 1

theorem C7_amended_witness : cActive.pending.length ≤ 1 :=
  C7_amended cActive
    (ReachAtomic.step
      (ReachAtomic.step
        (ReachAtomic.step ReachAtomic.start (StepA.initEv (ok_of_isOk _ (by decide))))
        (StepA.probeEv true (ok_of_isOk _ (by decide))))
      (StepA.activateOk 5 (ok_of_isOk _ (by decide))))

end VideojsXr
